import Mathlib

/-!
Verification of the puzh grid-puzzle simulation engine (src/main.rs).

The Rust source is shallowly embedded below: pure data types become Lean
inductives and structures, the mutable game state becomes explicit state
passing on a `Game` record, and the unboundedly recursive move resolver
`obj_move` takes an explicit fuel argument (the Rust recursion is bounded
in practice by the grid size; every theorem supplies enough fuel).
Rendering, animation timing (`Instant`, `Duration`), window handling and
level-file parsing are out of scope; the `Animation` payloads keep only
the coordinates the simulation writes, not the wall-clock fields that are
read exclusively by the renderer.
-/

namespace Puzh

/-- Integer 2D vector, standing for both `Point2<i32>` and `IVec2` of the
source. Coordinates stay far from the i32 bounds in all reachable states,
so plain `Int` is a faithful model. -/
structure Pt where
  x : Int
  y : Int
deriving DecidableEq, Repr

instance : Add Pt := ⟨fun a b => ⟨a.x + b.x, a.y + b.y⟩⟩
instance : Sub Pt := ⟨fun a b => ⟨a.x - b.x, a.y - b.y⟩⟩
instance : Neg Pt := ⟨fun a => ⟨-a.x, -a.y⟩⟩

mutual
/-- `enum RaygunKind` of the source. -/
inductive RaygunKind where
  /-- Swap the shootee with the shooter. -/
  | swapWithShooter : RaygunKind
  /-- Spawns a copy of the shootee on the tile the ray is coming from if possible. -/
  | duplicateShootee : RaygunKind
  /-- Turns the shootee into the specified object. -/
  | turnInto : ObjKind → RaygunKind
  /-- Turns the shootee A into a gun that turns its shootees into A. -/
  | turnIntoTurnInto : RaygunKind

/-- `enum ObjKind` of the source. -/
inductive ObjKind where
  | player : ObjKind
  | rock : ObjKind
  | wall : ObjKind
  | rope : ObjKind
  | soap : ObjKind
  | raygun : RaygunKind → ObjKind
  | mirror : ObjKind
  | mirrorSlopeUp : ObjKind
  | mirrorSlopeDown : ObjKind
  | tree : ObjKind
  | axe : ObjKind
  | wallWithHoles : ObjKind
  | cheese : ObjKind
  | bunny : ObjKind
  | door : ObjKind
  | key : ObjKind
end

deriving instance DecidableEq for RaygunKind, ObjKind
deriving instance Repr for RaygunKind, ObjKind

/-- `enum Animation` of the source, keeping only the coordinate payloads
(the `Instant`/`Duration` fields are only ever read by the renderer). -/
inductive Animation where
  | none : Animation
  | commingFrom : Pt → Animation
  | failingToMoveTo : Pt → Animation
deriving DecidableEq, Repr

/-- `struct Obj` of the source. -/
structure Obj where
  kind : ObjKind
  processed : Bool
  moved : Bool
  animation : Animation
deriving DecidableEq, Repr

/-- `Obj::from_kind`. -/
def Obj.from_kind (kind : ObjKind) : Obj :=
  { kind := kind, processed := false, moved := false, animation := .none }

/-- `Obj::can_move`. -/
def Obj.can_move (o : Obj) : Bool :=
  match o.kind with
  | .wall | .tree | .wallWithHoles | .door => false
  | _ => true

/-- `enum Ground` of the source. -/
inductive Ground where
  | grass : Ground
  | sapling : Bool → Ground
  | ice : Ground
deriving DecidableEq, Repr

/-- `struct Exit` of the source. -/
structure Exit where
  direction : Pt
  dst_level_id : String
deriving DecidableEq, Repr

/-- `struct Tile` of the source. -/
structure Tile where
  obj : Option Obj
  ground : Ground
  exit : Option Exit
deriving DecidableEq, Repr

/-- `Tile::new`. -/
def Tile.new : Tile := { obj := none, ground := .grass, exit := none }

/-- `struct Grid` of the source: a row-major vector of tiles. -/
structure Grid where
  tiles : List Tile
deriving DecidableEq, Repr

namespace Grid

/-- `Grid::W`. -/
def W : Int := 12
/-- `Grid::H`. -/
def H : Int := 12

/-- `Grid::new`. -/
def new : Grid := { tiles := List.replicate 144 Tile.new }

/-- `Grid::index`: row-major index of in-range coordinates. The Rust
assertion `index < self.tiles.len()` is settled separately (theorem
`index_lt_length` below): it can never fire on a well-formed grid. -/
def index (_g : Grid) (c : Pt) : Option Nat :=
  if 0 ≤ c.x ∧ c.x < W ∧ 0 ≤ c.y ∧ c.y < H then
    some (c.y * W + c.x).toNat
  else
    none

/-- `Grid::get`. -/
def get (g : Grid) (c : Pt) : Option Tile :=
  (g.index c).bind fun i => g.tiles.get? i

/-- `Grid::get_mut`, viewed through the tile it hands out: the same lookup
as `get` (the mutation a caller performs through the reference is modeled
by `set` below). -/
def get_mut (g : Grid) (c : Pt) : Option Tile :=
  (g.index c).bind fun i => g.tiles.get? i

/-- Writing a whole tile through the reference returned by `get_mut`.
When the coordinates are out of range the Rust callers in the engine
either checked `get` first or `unwrap` (a panic on a path that is
unreachable in the claims below); the out-of-range case is a no-op here. -/
def set (g : Grid) (c : Pt) (t : Tile) : Grid :=
  match g.index c with
  | some i => { tiles := g.tiles.set i t }
  | none => g

/-- `get_mut(c).unwrap().obj = o` of the source. -/
def setObj (g : Grid) (c : Pt) (o : Option Obj) : Grid :=
  match g.get c with
  | some t => g.set c { t with obj := o }
  | none => g

/-- The object stored at a coordinate, if any. -/
def objAt (g : Grid) (c : Pt) : Option Obj :=
  (g.get c).bind fun t => t.obj

/-- The kind of the object stored at a coordinate, if any. -/
def kindAt (g : Grid) (c : Pt) : Option ObjKind :=
  (g.objAt c).map fun o => o.kind

/-- Well-formedness: the tile vector has exactly `W * H = 144` entries,
as established by `Grid::new` and preserved by every mutation. -/
def Wf (g : Grid) : Prop := g.tiles.length = 144

/-- Writing the ground of a tile through `get_mut`, as the level builders
of the source do. -/
def setGround (g : Grid) (c : Pt) (gr : Ground) : Grid :=
  match g.get c with
  | some t => g.set c { t with ground := gr }
  | none => g

/-- Overwriting only the animation of the object at a coordinate, as the
source does through nested `get_mut(..).unwrap().obj.as_mut()` access. -/
def setObjAnimation (g : Grid) (c : Pt) (a : Animation) : Grid :=
  match g.objAt c with
  | some o => g.setObj c (some { o with animation := a })
  | none => g

/-- Overwriting only the processed flag of the object at a coordinate. -/
def setObjProcessed (g : Grid) (c : Pt) (b : Bool) : Grid :=
  match g.objAt c with
  | some o => g.setObj c (some { o with processed := b })
  | none => g

end Grid

/-- `Option::is_some_and` of the source. -/
def is_some_and {α : Type} (p : α → Bool) : Option α → Bool
  | some a => p a
  | none => false

/-- `Game::clear_processed_flags` (acts only on the grid). -/
def clear_processed_flags (g : Grid) : Grid :=
  { tiles := g.tiles.map fun t =>
      match t.obj with
      | some o => { t with obj := some { o with processed := false } }
      | none => t }

/-- `Game::clear_moved_flags` (acts only on the grid). -/
def clear_moved_flags (g : Grid) : Grid :=
  { tiles := g.tiles.map fun t =>
      match t.obj with
      | some o => { t with obj := some { o with moved := false } }
      | none => t }

/-- `Game::clear_animations` (acts only on the grid). -/
def clear_animations (g : Grid) : Grid :=
  { tiles := g.tiles.map fun t =>
      match t.obj with
      | some o => { t with obj := some { o with animation := .none } }
      | none => t }

/-- The per-tile body of `Game::handle_sapling`. -/
def saplingTile (can_grow : Bool) (t : Tile) : Tile :=
  match t.ground with
  | .sapling stepped_on =>
    if stepped_on ∧ t.obj = none ∧ can_grow = true then
      { t with ground := .grass, obj := some (Obj.from_kind .tree) }
    else if stepped_on = false ∧ t.obj.isSome = true then
      { t with ground := .sapling true }
    else t
  | _ => t

/-- `Game::handle_sapling` (acts only on the grid). -/
def handle_sapling (can_grow : Bool) (g : Grid) : Grid :=
  { tiles := g.tiles.map (saplingTile can_grow) }

/-- The ice-slide lookahead loop at the top of `Game::obj_move`,
with explicit fuel. For every direction the engine ever passes (the four
unit cardinals) the Rust loop stops within 12 iterations, because each
iteration moves the candidate destination to a fresh tile of a 12-wide
grid and the loop requires the tile to exist; fuel 144 therefore computes
the exact Rust result. -/
def iceDstAux : Nat → Grid → Pt → Pt → Pt
  | 0, _, c, _ => c
  | fuel + 1, g, c, d =>
    if (is_some_and (fun t => t.obj.isNone && decide (t.ground = .ice)) (g.get c)
        && is_some_and (fun t => t.obj.isNone) (g.get (c + d))) = true then
      iceDstAux fuel g (c + d) d
    else c

/-- Destination of a move from `coords` in `direction`, after the
ice-slide lookahead (`Game::obj_move`, first loop). -/
def iceDst (g : Grid) (coords direction : Pt) : Pt :=
  iceDstAux 144 g (coords + direction) direction

/-- `enum RayAction` of the source. -/
inductive RayAction where
  | swapWith : Pt → RayAction
  | duplicate : RayAction
  | turnInto : ObjKind → RayAction
  | turnIntoTurnInto : RayAction
deriving DecidableEq, Repr

/-- `struct Ray` of the source. -/
structure Ray where
  coords : Pt
  direction : Pt
  action : RayAction
deriving DecidableEq, Repr

/-- `struct Level` of the source, restricted to the fields the simulation
reads (`name`, `error_messages` and `notes` are display-only). -/
structure Level where
  grid : Grid
  id : String
  entry_coords : Pt
  entry_direction : Pt
deriving DecidableEq, Repr

/-- `struct Game` of the source, restricted to the simulation state
(`spritesheet`, `notes` and the animation clock are display-only). -/
structure Game where
  all_levels : List (String × Level)
  level : Level
  grid : Grid
  rays : List Ray
  cheese_count : Nat
  cheese_count_got_here : Nat
  step_count : Nat
  step_count_at_level_start : Nat
  reset_count : Nat
deriving Repr

/-- Addition of `u32` counters (wrapping, as in a Rust release build; no
reachable state gets anywhere near the modulus). -/
def uadd (a b : Nat) : Nat := (a + b) % 4294967296

/-- `Game::go_to_level`. The Rust code panics when the id is unknown
(`unwrap`); every id the engine passes comes from the level table, so the
unknown-id case is modeled as a no-op. -/
def go_to_level (g : Game) (level_id : String) : Game :=
  match g.all_levels.lookup level_id with
  | none => g
  | some new_level =>
    let entry_coords := new_level.entry_coords
    let entry_direction := new_level.entry_direction
    let grid1 := new_level.grid.setObj entry_coords (some (Obj.from_kind .player))
    let grid2 := grid1.setObjAnimation entry_coords
      (.commingFrom (entry_coords - entry_direction))
    { g with
      cheese_count := uadd g.cheese_count g.cheese_count_got_here,
      cheese_count_got_here := 0,
      step_count_at_level_start := g.step_count,
      level := new_level,
      grid := grid2,
      rays := [] }

/-- The exit test at the top of `Game::obj_move`: a Player standing on a
tile whose exit direction equals the move direction triggers a level
switch; the result is the destination level id. -/
def exitTriggered (tile : Tile) (obj : Obj) (direction : Pt) : Option String :=
  if obj.kind = .player then
    match tile.exit with
    | some e => if direction = e.direction then some e.dst_level_id else none
    | none => none
  else none

/-- The spring-back marking of a displaced Soap in `Game::obj_move`. -/
def soapPlace (soap : Obj) (src : Pt) : Obj :=
  if soap.animation = .none then
    { soap with animation := .commingFrom src, moved := true }
  else soap

/-- `Game::obj_move`, the recursive movement resolver, with explicit fuel
standing for the Rust call stack (recursion depth is bounded by the grid
size in every reachable state; all theorems supply enough fuel, and the
fuel-exhausted result is never relied upon). -/
def obj_move : Nat → Game → Pt → Pt → Bool → Game
  | 0, g, _, _, _ => g
  | fuel + 1, g, coords, direction, pushed =>
    let coords_dst := iceDst g.grid coords direction
    match g.grid.get coords with
    | none => g
    | some tile =>
      match tile.obj with
      | none => g
      | some obj =>
        match exitTriggered tile obj direction with
        | some dst_level_id => go_to_level g dst_level_id
        | none =>
          if obj.can_move = true then
            -- interaction with the destination occupant
            let p1 : Game × Option Obj × Bool :=
              match g.grid.get coords_dst with
              | none => (g, none, false)
              | some tile_dst =>
                match tile_dst.obj with
                | none => (g, none, false)
                | some obj_dst =>
                  if obj_dst.kind = .soap then
                    ({ g with grid := g.grid.setObj coords_dst none }, some obj_dst, false)
                  else if obj.kind = .axe ∧ obj_dst.kind = .tree then
                    ({ g with grid := g.grid.setObj coords_dst none }, none, false)
                  else if obj.kind = .player ∧ obj_dst.kind = .cheese then
                    ({ g with grid := g.grid.setObj coords_dst none,
                              cheese_count_got_here := uadd g.cheese_count_got_here 1 },
                     none, false)
                  else if obj.kind = .key ∧ obj_dst.kind = .door then
                    ({ g with grid := (g.grid.setObj coords none).setObj coords_dst none },
                     none, true)
                  else
                    (obj_move fuel g coords_dst direction true, none, false)
            let g1 := p1.1
            let soap0 := p1.2.1
            let key_got_in_door := p1.2.2
            -- re-check the destination for a Soap returned by the nested push
            let p2 : Game × Option Obj :=
              match g1.grid.get coords_dst with
              | some tile_dst2 =>
                match tile_dst2.obj with
                | some od =>
                  if od.kind = .soap then
                    ({ g1 with grid := g1.grid.setObj coords_dst none }, some od)
                  else (g1, soap0)
                | none => (g1, soap0)
              | none => (g1, soap0)
            let g2 := p2.1
            let soap_getting_back := p2.2
            match g2.grid.get coords_dst with
            | some tile_dst3 =>
              match tile_dst3.obj with
              | none =>
                -- destination free: the move happens (shall_move)
                let g3 :=
                  if key_got_in_door = true then g2
                  else
                    match g2.grid.objAt coords with
                    | none => g2  -- unreachable: the Rust take-and-unwrap panics
                    | some o =>
                      let o2 := { o with moved := true, animation := .commingFrom coords }
                      let gA := { g2 with
                        grid := (g2.grid.setObj coords none).setObj coords_dst (some o2) }
                      let gB :=
                        match soap_getting_back with
                        | some soap =>
                          { gA with grid := gA.grid.setObj coords (some (soapPlace soap coords_dst)) }
                        | none => gA
                      { gB with grid := handle_sapling false gB.grid }
                -- rope propagation: only non-pushed moves pull
                if pushed = true then g3
                else
                  let coords_maybe_pulled := coords - direction
                  if g2.grid.kindAt coords = some .rope
                      ∨ g3.grid.kindAt coords_maybe_pulled = some .rope then
                    obj_move fuel g3 coords_maybe_pulled direction false
                  else g3
              | some _ =>
                -- failed_to_move: destination still occupied
                { g2 with grid := g2.grid.setObjAnimation coords (.failingToMoveTo coords_dst) }
            | none =>
              -- failed_to_move: destination off the board
              { g2 with grid := g2.grid.setObjAnimation coords (.failingToMoveTo coords_dst) }
          else g

/-- The row-major traversal order of the grid used by `player_move`,
`player_shoot`, `handle_bunnies` and `draw`. -/
def coordList : List Pt :=
  (List.range 12).flatMap fun y => (List.range 12).map fun x => (⟨(x : Int), (y : Int)⟩ : Pt)

/-- The walk of `Game::line_of_sights_to` along one direction, with fuel:
the Rust loop stops within 13 iterations for the cardinal directions it is
called with, because each step goes to a fresh tile of the 12-wide grid
and stops at the first missing tile; fuel 144 computes the exact result. -/
def losLoop : Nat → Grid → Pt → Pt → ObjKind → Bool
  | 0, _, _, _, _ => false
  | fuel + 1, g, c, d, to_what =>
    let c2 := c + d
    match g.get c2 with
    | some t =>
      match t.obj with
      | some o => decide (o.kind = to_what)
      | none => losLoop fuel g c2 d to_what
    | none => false

/-- `Game::line_of_sights_to`. -/
def line_of_sights_to (g : Grid) (coords : Pt) (to_what : ObjKind) : List Pt :=
  [⟨1, 0⟩, ⟨0, 1⟩, ⟨-1, 0⟩, ⟨0, -1⟩].filter fun direction =>
    losLoop 144 g coords direction to_what

/-- `Game::handle_bunnies`. -/
def handle_bunnies (fuel : Nat) (g0 : Game) : Game :=
  coordList.foldl (fun g coords =>
    match g.grid.objAt coords with
    | some o =>
      if o.kind = .bunny ∧ o.processed = false then
        let scarred_dirs := (line_of_sights_to g.grid coords .player).filter fun dir =>
          is_some_and (fun t => t.obj.isNone || is_some_and Obj.can_move t.obj)
            (g.grid.get (coords - dir))
        let scarred_dir : Pt := scarred_dirs.foldl (· + ·) ⟨0, 0⟩
        if scarred_dir.x.natAbs + scarred_dir.y.natAbs = 1 then
          obj_move fuel { g with grid := g.grid.setObjProcessed coords true }
            coords (-scarred_dir) false
        else g
      else g
    | none => g) g0

/-- `Game::player_move`. -/
def player_move (fuel : Nat) (game : Game) (direction : Pt) : Game :=
  let gCleared := { game with
    grid := clear_animations (clear_moved_flags (clear_processed_flags game.grid)) }
  let g1 := coordList.foldl (fun g coords =>
    match g.grid.objAt coords with
    | some o =>
      if o.kind = .player ∧ o.processed = false ∧ o.moved = false then
        obj_move fuel { g with grid := g.grid.setObjProcessed coords true }
          coords direction false
      else g
    | none => g) gCleared
  let g2 := { g1 with step_count := uadd g1.step_count 1 }
  let g3 := { g2 with grid := handle_sapling true g2.grid }
  let g4 := handle_bunnies fuel g3
  { g4 with grid := handle_sapling true g4.grid }

/-- The neighbor directions scanned by `Game::player_shoot`. -/
def neighboor_dirs : List Pt := [⟨1, 0⟩, ⟨0, 1⟩, ⟨-1, 0⟩, ⟨0, -1⟩]

/-- `Game::player_shoot`. -/
def player_shoot (game : Game) : Game :=
  let gCleared := { game with
    grid := clear_animations (clear_moved_flags (clear_processed_flags game.grid)) }
  coordList.foldl (fun g coords =>
    match g.grid.objAt coords with
    | some o =>
      if o.kind = .player ∧ o.processed = false then
        let g2 := { g with grid := g.grid.setObjProcessed coords true }
        neighboor_dirs.foldl (fun g3 dir =>
          match g3.grid.objAt (coords + dir) with
          | some nobj =>
            match nobj.kind with
            | .raygun k =>
              { g3 with rays := g3.rays ++ [{
                  coords := coords + dir,
                  direction := dir,
                  action := match k with
                    | .swapWithShooter => .swapWith coords
                    | .duplicateShootee => .duplicate
                    | .turnInto into_what => .turnInto into_what
                    | .turnIntoTurnInto => .turnIntoTurnInto }] }
            | _ => g3
          | none => g3) g2
      else g
    | none => g) gCleared

/-- One advancement of a single in-flight ray, from the body of the ray
loop in `Game::update`: the returned ray is `none` exactly when the Rust
code pushes the index onto `rays_indices_to_remove` (the ray terminates). -/
def rayStep (grid : Grid) (ray : Ray) : Grid × Option Ray :=
  let dst_coords := ray.coords + ray.direction
  match grid.get dst_coords with
  | none => (grid, none)
  | some dst_tile =>
    match dst_tile.obj with
    | none => (grid, some { ray with coords := dst_coords })
    | some o =>
      if o.kind = .wallWithHoles then
        (grid, some { ray with coords := dst_coords })
      else if o.kind = .mirror then
        (grid, some { ray with coords := dst_coords, direction := -ray.direction })
      else if o.kind = .mirrorSlopeUp then
        (grid, some { ray with coords := dst_coords,
                               direction := ⟨-ray.direction.y, -ray.direction.x⟩ })
      else if o.kind = .mirrorSlopeDown then
        (grid, some { ray with coords := dst_coords,
                               direction := ⟨ray.direction.y, ray.direction.x⟩ })
      else
        match ray.action with
        | .swapWith with_who_coords =>
          let shootee := dst_tile.obj
          let grid1 := grid.setObj dst_coords none
          let shooter := grid1.objAt with_who_coords
          let grid2 := grid1.setObj with_who_coords none
          let grid3 := grid2.setObj dst_coords shooter
          (grid3.setObj with_who_coords shootee, none)
        | .duplicate =>
          match grid.objAt ray.coords with
          | none => (grid.setObj ray.coords (some (Obj.from_kind o.kind)), none)
          | some _ => (grid, none)
        | .turnInto into_what =>
          (grid.setObj dst_coords (some (Obj.from_kind into_what)), none)
        | .turnIntoTurnInto =>
          (grid.setObj dst_coords (some (Obj.from_kind (.raygun (.turnInto o.kind)))), none)

/-- The ray loop of `Game::update`: every ray advances once, in order, on
the grid as left by the rays before it; terminated rays are removed and
the relative order of the survivors is kept (the Rust code removes by
descending index). -/
def processRays (grid : Grid) : List Ray → Grid × List Ray
  | [] => (grid, [])
  | r :: rest =>
    match rayStep grid r with
    | (g2, some r2) =>
      let (g3, kept) := processRays g2 rest
      (g3, r2 :: kept)
    | (g2, none) => processRays g2 rest

/-- One completed animation window of `Game::update`: if any rays are in
flight they all advance one step and `handle_sapling(true)` runs. -/
def updateTick (g : Game) : Game :=
  if g.rays = [] then g
  else
    let pr := processRays g.grid g.rays
    { g with grid := handle_sapling true pr.1, rays := pr.2 }

/-- The keys `Game::key_down_event` reacts to. -/
inductive KeyCode where
  | escape | r | up | down | left | right | space | ret | other
deriving DecidableEq, Repr

/-- `Game::key_down_event` (escape only asks the windowing layer to quit,
leaving the game state unchanged). -/
def key_down_event (fuel : Nat) (g : Game) (key : KeyCode) : Game :=
  match key with
  | .escape => g
  | .r =>
    let g1 := { g with
      rays := ([] : List Ray),
      grid := g.level.grid,
      cheese_count_got_here := 0,
      step_count := g.step_count_at_level_start,
      reset_count := uadd g.reset_count 1 }
    let entry_coords := g.level.entry_coords
    let entry_direction := g.level.entry_direction
    let grid2 := g1.grid.setObj entry_coords (some (Obj.from_kind .player))
    let grid3 := grid2.setObjAnimation entry_coords
      (.commingFrom (entry_coords - entry_direction))
    { g1 with grid := grid3 }
  | .up => if g.rays = [] then player_move fuel g ⟨0, -1⟩ else g
  | .down => if g.rays = [] then player_move fuel g ⟨0, 1⟩ else g
  | .left => if g.rays = [] then player_move fuel g ⟨-1, 0⟩ else g
  | .right => if g.rays = [] then player_move fuel g ⟨1, 0⟩ else g
  | .space => if g.rays = [] then player_shoot g else g
  | .ret => if g.rays = [] then player_shoot g else g
  | .other => g

/-- The state after a successful unobstructed relocation of the object
`o` from `p` to `dst`: the move step of `obj_move` (take, mark, reinsert,
then the growth-suppressed sapling pass). -/
def movedGame (g : Game) (p dst : Pt) (o : Obj) : Game :=
  { g with grid := handle_sapling false
                    ((g.grid.setObj p none).setObj dst
                      (some { o with moved := true, animation := .commingFrom p })) }

/-- A minimal game state wrapping a grid, used by the concrete scenarios
below (counterexamples, failing inputs and witnesses). -/
def mkGame (grid : Grid) : Game :=
  { all_levels := [],
    level := { grid := Grid.new, id := "L", entry_coords := ⟨0, 0⟩, entry_direction := ⟨1, 0⟩ },
    grid := grid,
    rays := [],
    cheese_count := 0,
    cheese_count_got_here := 0,
    step_count := 0,
    step_count_at_level_start := 0,
    reset_count := 0 }

/-- Shorthand for placing a freshly created object, as the level builders
of the source do. -/
def Grid.place (g : Grid) (c : Pt) (k : ObjKind) : Grid :=
  g.setObj c (some (Obj.from_kind k))

/-- In-range coordinates, the condition tested by `Grid::index`. -/
def Grid.inRange (c : Pt) : Prop :=
  0 ≤ c.x ∧ c.x < Grid.W ∧ 0 ≤ c.y ∧ c.y < Grid.H

instance (c : Pt) : Decidable (Grid.inRange c) := by
  unfold Grid.inRange; infer_instance

/-- The four unit directions the engine ever moves or shoots along. -/
def isCardinal (d : Pt) : Prop :=
  d = ⟨1, 0⟩ ∨ d = ⟨-1, 0⟩ ∨ d = ⟨0, 1⟩ ∨ d = ⟨0, -1⟩

/-- `i` consecutive steps in direction `d`. -/
def smulPt (n : Nat) (d : Pt) : Pt := ⟨(n : Int) * d.x, (n : Int) * d.y⟩

/-- A game state with one in-flight ray, for the C7 witness. -/
def gOneRay : Game :=
  { mkGame Grid.new with
      rays := [{ coords := ⟨0, 0⟩, direction := ⟨1, 0⟩, action := .duplicate }] }

/-- The game of the C2 counterexample: a Player at (1,5) next to a
DuplicateShootee Raygun at (2,5), an empty tile at (3,5) and a Rock at
(4,5). Shooting spawns the ray on the gun tile; it advances to (3,5) on
the first tick and terminates against the Rock on the second. -/
def gC2 : Game :=
  mkGame (((Grid.new.place ⟨1, 5⟩ .player).place ⟨2, 5⟩
    (.raygun .duplicateShootee)).place ⟨4, 5⟩ .rock)

/-- The game of the C3 counterexample: a Player at (1,5) next to a
TurnInto(Rock) Raygun at (2,5) and a Wall at (3,5). -/
def gC3 : Game :=
  mkGame (((Grid.new.place ⟨1, 5⟩ .player).place ⟨2, 5⟩
    (.raygun (.turnInto .rock))).place ⟨3, 5⟩ .wall)

/-- The game of the C4 counterexample and witness: a Player at (3,5)
pushing right into a Soap at (4,5). -/
def gSoap : Game := mkGame ((Grid.new.place ⟨3, 5⟩ .player).place ⟨4, 5⟩ .soap)

/-- The game of the C1 counterexample: a single Rock at (5,5) with empty
Ice at (6,5) and empty Grass beyond. -/
def gC1ice : Game := mkGame ((Grid.new.place ⟨5, 5⟩ .rock).setGround ⟨6, 5⟩ .ice)

/-- The game of the C1 witness: two Rocks at (3,5) and (4,5) with empty
Grass beyond, pushed right. -/
def gC1w : Game := mkGame ((Grid.new.place ⟨3, 5⟩ .rock).place ⟨4, 5⟩ .rock)

/-- The game of the C8 witness: Ropes at (1,5) and (2,5), a Player at
(3,5) about to move right. -/
def gRope2 : Game :=
  mkGame (((Grid.new.place ⟨1, 5⟩ .rope).place ⟨2, 5⟩ .rope).place ⟨3, 5⟩ .player)

/-- The game of the C9 witness: a Rock at (5,5), Ice at (6,5), (7,5),
(8,5), Grass elsewhere. -/
def gIce : Game :=
  mkGame ((((Grid.new.place ⟨5, 5⟩ .rock).setGround ⟨6, 5⟩ .ice).setGround
    ⟨7, 5⟩ .ice).setGround ⟨8, 5⟩ .ice)

theorem Pt.add_def (a b : Pt) : a + b = ⟨a.x + b.x, a.y + b.y⟩ := rfl
theorem Pt.sub_def (a b : Pt) : a - b = ⟨a.x - b.x, a.y - b.y⟩ := rfl
theorem Pt.neg_def (a : Pt) : -a = ⟨-a.x, -a.y⟩ := rfl

theorem smulPt_zero (d : Pt) : smulPt 0 d = ⟨0, 0⟩ := by
  simp [smulPt]

theorem add_smulPt_succ (p : Pt) (n : Nat) (d : Pt) :
    p + smulPt (n + 1) d = (p + d) + smulPt n d := by
  simp only [smulPt, Pt.add_def, Pt.mk.injEq]
  refine ⟨?_, ?_⟩ <;> push_cast <;> ring

theorem add_smulPt_zero (p : Pt) (d : Pt) : p + smulPt 0 d = p := by
  cases p
  simp [smulPt, Pt.add_def]

theorem add_smulPt_one (p : Pt) (d : Pt) : p + smulPt 1 d = p + d := by
  simp [smulPt, Pt.add_def]

/-- Steps along a nonzero cardinal direction are injective. -/
theorem add_smulPt_inj {d : Pt} (hc : isCardinal d) (p : Pt) {i j : Nat}
    (h : p + smulPt i d = p + smulPt j d) : i = j := by
  rcases hc with h1 | h1 | h1 | h1 <;> subst h1 <;>
  · simp only [smulPt, Pt.add_def, Pt.mk.injEq] at h
    omega

/-- A cardinal direction is nonzero, so one step leads elsewhere. -/
theorem add_cardinal_ne {d : Pt} (hc : isCardinal d) (p : Pt) : p + d ≠ p := by
  rcases hc with h1 | h1 | h1 | h1 <;> subst h1 <;>
  · intro h
    rw [Pt.add_def] at h
    cases p
    simp only [Pt.mk.injEq] at h
    omega

namespace Grid

theorem get_def (g : Grid) (c : Pt) :
    g.get c = (g.index c).bind fun i => g.tiles.get? i := rfl

theorem index_set (g : Grid) (c c' : Pt) (t : Tile) :
    (g.set c t).index c' = g.index c' := rfl

theorem index_of_inRange {c : Pt} (h : inRange c) (g : Grid) :
    g.index c = some (c.y * W + c.x).toNat := by
  unfold inRange at h
  simp [index, h]

theorem index_of_not_inRange {c : Pt} (h : ¬ inRange c) (g : Grid) :
    g.index c = none := by
  unfold inRange at h
  simp [index, h]

/-- Any index produced by `Grid::index` is below 144, so the Rust
assertion in `Grid::index` holds on every well-formed grid. -/
theorem index_lt {g : Grid} {c : Pt} {i : Nat} (h : g.index c = some i) : i < 144 := by
  unfold index at h
  split at h
  · next hr =>
    have hi : (c.y * W + c.x).toNat = i := by simpa using h
    simp only [W, H] at hr hi
    omega
  · exact absurd h (by simp)

/-- `Grid::index` is injective on its domain. -/
theorem index_inj {g g' : Grid} {c c' : Pt} {i : Nat}
    (h : g.index c = some i) (h' : g'.index c' = some i) : c = c' := by
  unfold index at h h'
  split at h
  · next hr =>
    split at h'
    · next hr' =>
      have hi : (c.y * W + c.x).toNat = i := by simpa using h
      have hi' : (c'.y * W + c'.x).toNat = i := by simpa using h'
      simp only [W, H] at hr hr' hi hi'
      have hxy : c.x = c'.x ∧ c.y = c'.y := by omega
      cases c; cases c'
      simp only [Pt.mk.injEq]
      exact ⟨hxy.1, hxy.2⟩
    · exact absurd h' (by simp)
  · exact absurd h (by simp)

/-- A successful `get` pins the index and the list entry. -/
theorem get_some_elim {g : Grid} {c : Pt} {t : Tile} (h : g.get c = some t) :
    ∃ i, g.index c = some i ∧ g.tiles.get? i = some t ∧ i < g.tiles.length := by
  rw [get_def] at h
  cases hidx : g.index c with
  | none => rw [hidx] at h; exact absurd h (by simp)
  | some i =>
    rw [hidx] at h
    replace h : g.tiles.get? i = some t := h
    exact ⟨i, rfl, h, (List.get?_eq_some.mp h).1⟩

theorem get_set_self {g : Grid} {c : Pt} {t : Tile} (h : g.get c = some t) (t' : Tile) :
    (g.set c t').get c = some t' := by
  obtain ⟨i, hidx, hget, hlt⟩ := get_some_elim h
  unfold set
  rw [hidx, get_def]
  have hidx2 : Grid.index { tiles := g.tiles.set i t' } c = some i := hidx
  rw [hidx2]
  simp only [Option.bind_some, List.get?_eq_getElem?]
  exact List.getElem?_set_eq_of_lt t' hlt

theorem get_set_ne {g : Grid} {c c' : Pt} (h : c' ≠ c) (t : Tile) :
    (g.set c t).get c' = g.get c' := by
  unfold set
  cases hidx : g.index c with
  | none => rfl
  | some i =>
    rw [get_def, get_def]
    have hidx2 : Grid.index { tiles := g.tiles.set i t } c' = g.index c' := rfl
    rw [hidx2]
    cases hidx' : g.index c' with
    | none => simp
    | some j =>
      have hj : i ≠ j := by
        intro he
        subst he
        exact h (@index_inj g g c' c i hidx' hidx)
      simp only [Option.bind_some, List.get?_eq_getElem?]
      exact List.getElem?_set_ne hj

theorem get_setObj_self {g : Grid} {c : Pt} {t : Tile} (h : g.get c = some t) (o : Option Obj) :
    (g.setObj c o).get c = some { t with obj := o } := by
  unfold setObj
  rw [h]
  exact get_set_self h _

theorem get_setObj_ne {g : Grid} {c c' : Pt} (h : c' ≠ c) (o : Option Obj) :
    (g.setObj c o).get c' = g.get c' := by
  unfold setObj
  cases hg : g.get c with
  | none => rfl
  | some t => exact get_set_ne h _

theorem setObj_of_get_none {g : Grid} {c : Pt} (h : g.get c = none) (o : Option Obj) :
    g.setObj c o = g := by
  unfold setObj
  rw [h]

theorem objAt_setObj_self {g : Grid} {c : Pt} {t : Tile} (h : g.get c = some t) (o : Option Obj) :
    (g.setObj c o).objAt c = o := by
  unfold objAt
  rw [get_setObj_self h o]
  rfl

theorem objAt_setObj_ne {g : Grid} {c c' : Pt} (h : c' ≠ c) (o : Option Obj) :
    (g.setObj c o).objAt c' = g.objAt c' := by
  unfold objAt
  rw [get_setObj_ne h o]

theorem kindAt_setObj_self {g : Grid} {c : Pt} {t : Tile} (h : g.get c = some t) (o : Option Obj) :
    (g.setObj c o).kindAt c = o.map Obj.kind := by
  unfold kindAt
  rw [objAt_setObj_self h o]

theorem kindAt_setObj_ne {g : Grid} {c c' : Pt} (h : c' ≠ c) (o : Option Obj) :
    (g.setObj c o).kindAt c' = g.kindAt c' := by
  unfold kindAt
  rw [objAt_setObj_ne h o]

theorem objAt_eq_none_of_get_none {g : Grid} {c : Pt} (h : g.get c = none) :
    g.objAt c = none := by
  unfold objAt
  rw [h]
  rfl

theorem kindAt_eq_some_elim {g : Grid} {c : Pt} {k : ObjKind} (h : g.kindAt c = some k) :
    ∃ t o, g.get c = some t ∧ t.obj = some o ∧ o.kind = k := by
  have h1 : ∃ o, g.objAt c = some o ∧ o.kind = k := by
    unfold kindAt at h
    cases ho : g.objAt c with
    | none => rw [ho] at h; exact absurd h (by simp)
    | some o =>
      rw [ho] at h
      exact ⟨o, rfl, by simpa using h⟩
  obtain ⟨o, ho, hk⟩ := h1
  unfold objAt at ho
  cases hg : g.get c with
  | none => rw [hg] at ho; exact absurd ho (by simp)
  | some t =>
    rw [hg] at ho
    exact ⟨t, o, rfl, by simpa using ho, hk⟩

end Grid

theorem get_handle_sapling (b : Bool) (g : Grid) (c : Pt) :
    (handle_sapling b g).get c = (g.get c).map (saplingTile b) := by
  rw [Grid.get_def, Grid.get_def]
  have hidx : (handle_sapling b g).index c = g.index c := rfl
  rw [hidx]
  cases hi : g.index c with
  | none => rfl
  | some i =>
    show (g.tiles.map (saplingTile b)).get? i = (g.tiles.get? i).map (saplingTile b)
    simp [List.getElem?_map, List.get?_eq_getElem?]

theorem saplingTile_false_obj (t : Tile) : (saplingTile false t).obj = t.obj := by
  unfold saplingTile
  cases t.ground with
  | grass => rfl
  | ice => rfl
  | sapling b =>
    simp only [Bool.false_eq_true, and_false, if_false]
    split <;> rfl

theorem objAt_handle_sapling_false (g : Grid) (c : Pt) :
    (handle_sapling false g).objAt c = g.objAt c := by
  unfold Grid.objAt
  rw [get_handle_sapling]
  cases g.get c with
  | none => rfl
  | some t => simp [saplingTile_false_obj]

theorem kindAt_handle_sapling_false (g : Grid) (c : Pt) :
    (handle_sapling false g).kindAt c = g.kindAt c := by
  unfold Grid.kindAt
  rw [objAt_handle_sapling_false]

theorem Grid.get_eq_none_iff {g : Grid} (hwf : g.Wf) (c : Pt) :
    g.get c = none ↔ ¬ Grid.inRange c := by
  constructor
  · intro h hr
    rw [Grid.get_def, Grid.index_of_inRange hr] at h
    replace h : g.tiles.get? (c.y * Grid.W + c.x).toNat = none := h
    rw [List.get?_eq_none] at h
    unfold Grid.Wf at hwf
    unfold Grid.inRange at hr
    simp only [Grid.W, Grid.H] at hr h
    omega
  · intro hr
    rw [Grid.get_def, Grid.index_of_not_inRange hr]
    rfl

theorem Grid.set_set (g : Grid) (c : Pt) (t1 t2 : Tile) :
    (g.set c t1).set c t2 = g.set c t2 := by
  cases hidx : g.index c with
  | none =>
    have h0 : ∀ t, g.set c t = g := fun t => by unfold Grid.set; rw [hidx]
    simp only [h0]
  | some i =>
    have h1 : g.set c t1 = { tiles := g.tiles.set i t1 } := by unfold Grid.set; rw [hidx]
    have h2 : g.set c t2 = { tiles := g.tiles.set i t2 } := by unfold Grid.set; rw [hidx]
    have hidx2 : Grid.index { tiles := g.tiles.set i t1 } c = some i := hidx
    have h3 : Grid.set { tiles := g.tiles.set i t1 } c t2
        = { tiles := (g.tiles.set i t1).set i t2 } := by
      unfold Grid.set; rw [hidx2]
    rw [h1, h3, h2, List.set_set]

theorem Grid.setObj_setObj {g : Grid} {c : Pt} {t : Tile} (h : g.get c = some t)
    (x y : Option Obj) : (g.setObj c x).setObj c y = g.setObj c y := by
  have e1 : g.setObj c x = g.set c { t with obj := x } := by unfold Grid.setObj; rw [h]
  have e2 : g.setObj c y = g.set c { t with obj := y } := by unfold Grid.setObj; rw [h]
  have h2 : (g.set c { t with obj := x }).get c = some { t with obj := x } :=
    Grid.get_set_self h _
  have e3 : (g.set c { t with obj := x }).setObj c y
      = (g.set c { t with obj := x }).set c { t with obj := y } := by
    unfold Grid.setObj; rw [h2]
  rw [e1, e3, Grid.set_set, e2]

/-- Placing a fresh object and then overwriting its animation in place is
one placement of the fully initialized object. -/
theorem setObjAnimation_setObj (g : Grid) (c : Pt) (o : Obj) (a : Animation) :
    (g.setObj c (some o)).setObjAnimation c a
      = g.setObj c (some { o with animation := a }) := by
  cases hg : g.get c with
  | none =>
    rw [Grid.setObj_of_get_none hg, Grid.setObj_of_get_none hg]
    unfold Grid.setObjAnimation
    rw [Grid.objAt_eq_none_of_get_none hg]
  | some t =>
    unfold Grid.setObjAnimation
    rw [Grid.objAt_setObj_self hg]
    exact Grid.setObj_setObj hg _ _

theorem kindAt_setObjAnimation (g : Grid) (c c' : Pt) (a : Animation) :
    (g.setObjAnimation c a).kindAt c' = g.kindAt c' := by
  unfold Grid.setObjAnimation
  cases ho : g.objAt c with
  | none => rfl
  | some o =>
    by_cases hcc : c' = c
    · subst hcc
      unfold Grid.objAt at ho
      cases hg : g.get c' with
      | none => rw [hg] at ho; exact absurd ho (by simp)
      | some t =>
        rw [hg] at ho
        replace ho : t.obj = some o := ho
        unfold Grid.kindAt Grid.objAt
        rw [Grid.get_setObj_self hg, hg]
        simp [ho]
    · unfold Grid.kindAt
      rw [Grid.objAt_setObj_ne hcc]

theorem sub_cardinal_ne {d : Pt} (hc : isCardinal d) (p : Pt) : p - d ≠ p := by
  rcases hc with h1 | h1 | h1 | h1 <;> subst h1 <;>
  · intro h
    rw [Pt.sub_def] at h
    cases p
    simp only [Pt.mk.injEq] at h
    omega

theorem sub_ne_add {d : Pt} (hc : isCardinal d) (p : Pt) : p - d ≠ p + d := by
  rcases hc with h1 | h1 | h1 | h1 <;> subst h1 <;>
  · intro h
    rw [Pt.sub_def, Pt.add_def] at h
    cases p
    simp only [Pt.mk.injEq] at h
    omega

/-- The ice-slide loop does not advance past an occupied candidate tile. -/
theorem iceDstAux_stop {fuel : Nat} {g : Grid} {c d : Pt}
    (h : is_some_and (fun t => t.obj.isNone && decide (t.ground = .ice)) (g.get c) = false) :
    iceDstAux (fuel + 1) g c d = c := by
  simp [iceDstAux, h]

/-- The ice-slide loop advances while the candidate is empty ice and the
next tile is empty. -/
theorem iceDstAux_step {fuel : Nat} {g : Grid} {c d : Pt}
    (h1 : is_some_and (fun t => t.obj.isNone && decide (t.ground = .ice)) (g.get c) = true)
    (h2 : is_some_and (fun t => t.obj.isNone) (g.get (c + d)) = true) :
    iceDstAux (fuel + 1) g c d = iceDstAux fuel g (c + d) d := by
  simp [iceDstAux, h1, h2]

/-- An occupied tile never satisfies the first ice-slide condition. -/
theorem ice_cond_false_of_obj {g : Grid} {c : Pt} {t : Tile} {o : Obj}
    (hg : g.get c = some t) (ho : t.obj = some o) :
    is_some_and (fun t => t.obj.isNone && decide (t.ground = .ice)) (g.get c) = false := by
  rw [hg]
  simp [is_some_and, ho]

/-- A non-ice tile never satisfies the first ice-slide condition. -/
theorem ice_cond_false_of_ground {g : Grid} {c : Pt} {t : Tile}
    (hg : g.get c = some t) (hgr : t.ground ≠ .ice) :
    is_some_and (fun t => t.obj.isNone && decide (t.ground = .ice)) (g.get c) = false := by
  rw [hg]
  simp [is_some_and, hgr]

/-- A missing tile never satisfies the first ice-slide condition. -/
theorem ice_cond_false_of_none {g : Grid} {c : Pt} (hg : g.get c = none) :
    is_some_and (fun t => t.obj.isNone && decide (t.ground = .ice)) (g.get c) = false := by
  rw [hg]
  rfl

/-- The ice-slide loop also stops when the tile past the candidate is not
empty. -/
theorem iceDstAux_stop2 {fuel : Nat} {g : Grid} {c d : Pt}
    (h : is_some_and (fun t => t.obj.isNone) (g.get (c + d)) = false) :
    iceDstAux (fuel + 1) g c d = c := by
  simp [iceDstAux, h]

/-- When the first candidate already fails the slide condition, the move
destination is the adjacent tile. -/
theorem iceDst_eq_step {g : Grid} {p d : Pt}
    (h : is_some_and (fun t => t.obj.isNone && decide (t.ground = .ice))
      (g.get (p + d)) = false) :
    iceDst g p d = p + d := by
  unfold iceDst
  rw [show (144 : Nat) = 143 + 1 from rfl]
  exact iceDstAux_stop h

/-- When the tile past the first candidate is not empty, the move
destination is the adjacent tile. -/
theorem iceDst_eq_step2 {g : Grid} {p d : Pt}
    (h : is_some_and (fun t => t.obj.isNone) (g.get (p + d + d)) = false) :
    iceDst g p d = p + d := by
  unfold iceDst
  rw [show (144 : Nat) = 143 + 1 from rfl]
  exact iceDstAux_stop2 h

theorem Pt.sub_add_cancel (p d : Pt) : p - d + d = p := by
  cases p
  simp [Pt.sub_def, Pt.add_def]

/-- All the coordinate distinctness facts needed along a rope chain of
length up to three behind a mover. -/
theorem cardinal_ne_pack {d : Pt} (hc : isCardinal d) (p : Pt) :
    p + d ≠ p ∧ p - d ≠ p ∧ p - d ≠ p + d ∧ p - d - d ≠ p ∧ p - d - d ≠ p + d
    ∧ p - d - d ≠ p - d ∧ p - d - d - d ≠ p ∧ p - d - d - d ≠ p + d
    ∧ p - d - d - d ≠ p - d ∧ p - d - d - d ≠ p - d - d := by
  rcases hc with h1 | h1 | h1 | h1 <;> subst h1 <;> cases p <;>
    refine ⟨?_, ?_, ?_, ?_, ?_, ?_, ?_, ?_, ?_, ?_⟩ <;>
    · intro h
      simp only [Pt.add_def, Pt.sub_def, Pt.mk.injEq] at h
      omega

theorem Grid.kindAt_def (g : Grid) (c : Pt) :
    g.kindAt c = (g.objAt c).map Obj.kind := rfl

/-- Reading an untouched coordinate through a completed move step. -/
theorem movedGame_objAt_ne {g : Game} {p dst c : Pt} (o : Obj)
    (hcp : c ≠ p) (hcd : c ≠ dst) :
    (movedGame g p dst o).grid.objAt c = g.grid.objAt c := by
  show (handle_sapling false _).objAt c = _
  rw [objAt_handle_sapling_false, Grid.objAt_setObj_ne hcd, Grid.objAt_setObj_ne hcp]

/-- Reading the destination of a completed move step. -/
theorem movedGame_objAt_dst {g : Game} {p dst : Pt} {t : Tile} (o : Obj)
    (hdp : dst ≠ p) (hget : g.grid.get dst = some t) :
    (movedGame g p dst o).grid.objAt dst
      = some { o with moved := true, animation := .commingFrom p } := by
  show (handle_sapling false _).objAt dst = _
  rw [objAt_handle_sapling_false,
    Grid.objAt_setObj_self (by rw [Grid.get_setObj_ne hdp]; exact hget)]

/-- Reading the vacated source of a completed move step. -/
theorem movedGame_objAt_src {g : Game} {p dst : Pt} {tp : Tile} (o : Obj)
    (hpd : p ≠ dst) (hp : g.grid.get p = some tp) :
    (movedGame g p dst o).grid.objAt p = none := by
  show (handle_sapling false _).objAt p = _
  rw [objAt_handle_sapling_false, Grid.objAt_setObj_ne hpd, Grid.objAt_setObj_self hp]

/-- A present object pins the tile that carries it. -/
theorem Grid.objAt_eq_some_elim {g : Grid} {c : Pt} {o : Obj} (h : g.objAt c = some o) :
    ∃ t, g.get c = some t ∧ t.obj = some o := by
  unfold Grid.objAt at h
  cases hg : g.get c with
  | none => rw [hg] at h; exact absurd h (by simp)
  | some t =>
    rw [hg] at h
    exact ⟨t, rfl, h⟩

/-- Distinct step counts along a cardinal direction land on distinct
tiles. -/
theorem add_smulPt_ne {d : Pt} (hc : isCardinal d) (p : Pt) {i j : Nat} (hij : i ≠ j) :
    p + smulPt i d ≠ p + smulPt j d :=
  fun he => hij (add_smulPt_inj hc p he)

/-- An occupied tile fails the emptiness side of the ice-slide check. -/
theorem is_some_and_isNone_false {g : Grid} {c : Pt} {o : Obj} (h : g.objAt c = some o) :
    is_some_and (fun t => t.obj.isNone) (g.get c) = false := by
  unfold Grid.objAt at h
  cases hg : g.get c with
  | none => rw [hg] at h; exact absurd h (by simp)
  | some t =>
    rw [hg] at h
    replace h : t.obj = some o := h
    simp [is_some_and, h]

set_option maxHeartbeats 2000000 in
/-- A move request on a tile with no object (or no tile at all) does
nothing, whatever the fuel. -/
theorem obj_move_noop {g : Game} {p : Pt} (d : Pt) (pushed : Bool)
    (hnone : g.grid.objAt p = none) :
    ∀ fuel, obj_move fuel g p d pushed = g := by
  intro fuel
  cases fuel with
  | zero => rfl
  | succ fuel =>
    cases hg : g.grid.get p with
    | none => simp only [obj_move, hg]
    | some t =>
      have ht : t.obj = none := by
        unfold Grid.objAt at hnone
        rw [hg] at hnone
        exact hnone
      simp only [obj_move, hg, ht]

set_option maxHeartbeats 2000000 in
/-- A move request on an immovable object (Wall, Tree, WallWithHoles,
Door) that does not trigger an exit does nothing, whatever the fuel. -/
theorem obj_move_immovable {g : Game} {p : Pt} {tp : Tile} {o : Obj} (d : Pt) (pushed : Bool)
    (hp : g.grid.get p = some tp) (hobj : tp.obj = some o)
    (hexit : exitTriggered tp o d = none) (hmv : o.can_move = false) :
    ∀ fuel, obj_move fuel g p d pushed = g := by
  intro fuel
  cases fuel with
  | zero => rfl
  | succ fuel =>
    simp only [obj_move, hp, hobj, hexit, hmv, Bool.false_eq_true, reduceCtorEq,
      ite_false, if_false]

set_option maxHeartbeats 2000000 in
/-- One unfolding of `obj_move` when the (already ice-resolved)
destination tile exists and is empty: the object relocates and the rope
propagation decides whether another resolution is chained. -/
theorem obj_move_into_empty {g : Game} {p d dst : Pt} {tp tdst : Tile} {o : Obj}
    (fuel : Nat) (pushed : Bool)
    (hp : g.grid.get p = some tp) (hobj : tp.obj = some o)
    (hexit : exitTriggered tp o d = none) (hmv : o.can_move = true)
    (hice : iceDst g.grid p d = dst)
    (hdst : g.grid.get dst = some tdst) (hdobj : tdst.obj = none) :
    obj_move (fuel + 1) g p d pushed =
      if pushed = true then movedGame g p dst o
      else if g.grid.kindAt p = some .rope
          ∨ (movedGame g p dst o).grid.kindAt (p - d) = some .rope then
        obj_move fuel (movedGame g p dst o) (p - d) d false
      else movedGame g p dst o := by
  have hobjAtp : g.grid.objAt p = some o := by
    unfold Grid.objAt
    rw [hp]
    exact hobj
  simp only [obj_move, movedGame, hice, hp, hobj, hexit, hmv, hdst, hdobj, hobjAtp,
    if_pos, if_true, if_false, Bool.false_eq_true, reduceCtorEq, ite_false, ite_true]

set_option maxHeartbeats 2000000 in
/-- One unfolding of `obj_move` when the destination is occupied by a
plain occupant (no Soap, no Axe-Tree, no Player-Cheese, no Key-Door pair)
and the nested push frees the destination: the mover follows into the
freed tile. `g1` is the state left by the nested push. -/
theorem obj_move_push_free {g g1 : Game} {p d dst : Pt} {tp tdst t1 : Tile} {o odst o1 : Obj}
    (fuel : Nat) (pushed : Bool)
    (hp : g.grid.get p = some tp) (hobj : tp.obj = some o)
    (hexit : exitTriggered tp o d = none) (hmv : o.can_move = true)
    (hice : iceDst g.grid p d = dst)
    (hdst : g.grid.get dst = some tdst) (hdobj : tdst.obj = some odst)
    (hns : odst.kind ≠ .soap)
    (hnat : ¬(o.kind = .axe ∧ odst.kind = .tree))
    (hnpc : ¬(o.kind = .player ∧ odst.kind = .cheese))
    (hnkd : ¬(o.kind = .key ∧ odst.kind = .door))
    (hg1 : obj_move fuel g dst d true = g1)
    (hg1dst : g1.grid.get dst = some t1) (ht1 : t1.obj = none)
    (hg1p : g1.grid.objAt p = some o1) :
    obj_move (fuel + 1) g p d pushed =
      if pushed = true then movedGame g1 p dst o1
      else if g1.grid.kindAt p = some .rope
          ∨ (movedGame g1 p dst o1).grid.kindAt (p - d) = some .rope then
        obj_move fuel (movedGame g1 p dst o1) (p - d) d false
      else movedGame g1 p dst o1 := by
  simp only [obj_move, movedGame, hice, hp, hobj, hexit, hmv, hdst, hdobj, hns, hnat,
    hnpc, hnkd, hg1, hg1dst, ht1, hg1p,
    if_pos, if_true, if_false, Bool.false_eq_true, reduceCtorEq, ite_false, ite_true,
    eq_self_iff_true, not_true, not_false_iff]

set_option maxHeartbeats 2000000 in
/-- One unfolding of `obj_move` when the destination is occupied by a
plain occupant and the nested push leaves the destination occupied by a
non-Soap object: the whole move fails and only the failure animation of
the mover is written. -/
theorem obj_move_push_blocked {g g1 : Game} {p d dst : Pt} {tp tdst t1 : Tile} {o odst : Obj}
    (fuel : Nat) (pushed : Bool)
    (hp : g.grid.get p = some tp) (hobj : tp.obj = some o)
    (hexit : exitTriggered tp o d = none) (hmv : o.can_move = true)
    (hice : iceDst g.grid p d = dst)
    (hdst : g.grid.get dst = some tdst) (hdobj : tdst.obj = some odst)
    (hns : odst.kind ≠ .soap)
    (hnat : ¬(o.kind = .axe ∧ odst.kind = .tree))
    (hnpc : ¬(o.kind = .player ∧ odst.kind = .cheese))
    (hnkd : ¬(o.kind = .key ∧ odst.kind = .door))
    (hg1 : obj_move fuel g dst d true = g1)
    (hg1dst : g1.grid.get dst = some t1) {ot1 : Obj} (ht1 : t1.obj = some ot1)
    (hot1 : ot1.kind ≠ .soap) :
    obj_move (fuel + 1) g p d pushed =
      { g1 with grid := g1.grid.setObjAnimation p (.failingToMoveTo dst) } := by
  simp only [obj_move, hice, hp, hobj, hexit, hmv, hdst, hdobj, hns, hnat,
    hnpc, hnkd, hg1, hg1dst, ht1, hot1,
    if_pos, if_true, if_false, Bool.false_eq_true, reduceCtorEq, ite_false, ite_true]

set_option maxHeartbeats 2000000 in
/-- One unfolding of `obj_move` when the (already ice-resolved)
destination is off the board: the move fails and only the failure
animation of the mover is written. -/
theorem obj_move_edge {g : Game} {p d dst : Pt} {tp : Tile} {o : Obj}
    (fuel : Nat) (pushed : Bool)
    (hp : g.grid.get p = some tp) (hobj : tp.obj = some o)
    (hexit : exitTriggered tp o d = none) (hmv : o.can_move = true)
    (hice : iceDst g.grid p d = dst)
    (hdst : g.grid.get dst = none) :
    obj_move (fuel + 1) g p d pushed =
      { g with grid := g.grid.setObjAnimation p (.failingToMoveTo dst) } := by
  simp only [obj_move, hice, hp, hobj, hexit, hmv, hdst,
    if_pos, if_true, if_false, Bool.false_eq_true, reduceCtorEq, ite_false, ite_true]

/-- The spring-back marking keeps the kind of the Soap. -/
theorem soapPlace_kind (s : Obj) (src : Pt) : (soapPlace s src).kind = s.kind := by
  unfold soapPlace
  split <;> rfl

/-- A fresh grid holds no object anywhere. -/
theorem Grid.objAt_new (c : Pt) : Grid.new.objAt c = none := by
  unfold Grid.objAt
  cases hg : Grid.new.get c with
  | none => rfl
  | some t =>
    obtain ⟨i, hidx, hget, hlt⟩ := Grid.get_some_elim hg
    have hmem : t ∈ List.replicate 144 Tile.new := List.get?_mem hget
    have ht : t = Tile.new := List.eq_of_mem_replicate hmem
    subst ht
    rfl

/-- A fresh grid holds no object kind anywhere. -/
theorem Grid.kindAt_new (c : Pt) : Grid.new.kindAt c = none := by
  unfold Grid.kindAt
  rw [Grid.objAt_new]
  rfl

/-! ## Claim theorems -/

/-- C5: for every i32 coordinate pair, `Grid::get` and `Grid::get_mut`
return none exactly when the coordinates are out of range (x below 0, x at
least 12, y below 0 or y at least 12) and some tile otherwise, and neither
operation ever panics: the only panic site, the assertion in `Grid::index`,
always holds on a well-formed grid. -/
theorem claim_C5 (g : Grid) (c : Pt) (hwf : g.Wf) :
    (g.get c = none ↔ (c.x < 0 ∨ Grid.W ≤ c.x ∨ c.y < 0 ∨ Grid.H ≤ c.y))
    ∧ (g.get_mut c = none ↔ (c.x < 0 ∨ Grid.W ≤ c.x ∨ c.y < 0 ∨ Grid.H ≤ c.y))
    ∧ (∀ i, g.index c = some i → i < g.tiles.length) := by
  have hiff : ¬ Grid.inRange c ↔ (c.x < 0 ∨ Grid.W ≤ c.x ∨ c.y < 0 ∨ Grid.H ≤ c.y) := by
    unfold Grid.inRange
    constructor
    · intro h
      by_contra hc
      push_neg at hc
      exact h ⟨by omega, by omega, by omega, by omega⟩
    · intro h hc
      obtain ⟨h1, h2, h3, h4⟩ := hc
      rcases h with h | h | h | h <;> omega
  have hget := (Grid.get_eq_none_iff hwf c).trans hiff
  refine ⟨hget, hget, fun i hi => ?_⟩
  have := Grid.index_lt hi
  unfold Grid.Wf at hwf
  omega

/-- Witness for C5 at a concrete grid and concrete coordinates. -/
theorem claim_C5_witness :
    Grid.new.get ⟨12, 3⟩ = none ∧ ¬ Grid.new.get ⟨3, 5⟩ = none := by
  constructor
  · exact (claim_C5 Grid.new ⟨12, 3⟩ (by simp [Grid.Wf, Grid.new])).1.mpr
      (by simp only [Grid.W]; norm_num)
  · intro h
    have h2 := (claim_C5 Grid.new ⟨3, 5⟩ (by simp [Grid.Wf, Grid.new])).1.mp h
    simp only [Grid.W, Grid.H] at h2
    rcases h2 with h2 | h2 | h2 | h2 <;> omega

/-- C6: a ray advancing into a mirror tile is reflected, never terminated:
a Mirror negates the direction, a MirrorSlopeUp maps direction (dx, dy) to
(-dy, -dx) (so incoming (1,0) exits (0,-1)), a MirrorSlopeDown maps
(dx, dy) to (dy, dx) (so incoming (1,0) exits (0,1)); in each case the ray
moves onto the mirror tile and the grid is untouched. -/
theorem claim_C6 (g : Grid) (r : Ray) (t : Tile) (o : Obj)
    (ht : g.get (r.coords + r.direction) = some t) (ho : t.obj = some o) :
    (o.kind = .mirror →
      rayStep g r = (g, some { r with coords := r.coords + r.direction,
                                      direction := -r.direction }))
    ∧ (o.kind = .mirrorSlopeUp →
      rayStep g r = (g, some { r with coords := r.coords + r.direction,
                                      direction := ⟨-r.direction.y, -r.direction.x⟩ }))
    ∧ (o.kind = .mirrorSlopeDown →
      rayStep g r = (g, some { r with coords := r.coords + r.direction,
                                      direction := ⟨r.direction.y, r.direction.x⟩ })) := by
  refine ⟨fun hk => ?_, fun hk => ?_, fun hk => ?_⟩ <;>
    simp [rayStep, ht, ho, hk]

/-- Witness for C6: one concrete grid per mirror kind, incoming (1,0). -/
theorem claim_C6_witness :
    rayStep (Grid.new.place ⟨5, 5⟩ .mirror)
        { coords := ⟨4, 5⟩, direction := ⟨1, 0⟩, action := .duplicate }
      = (Grid.new.place ⟨5, 5⟩ .mirror,
         some { coords := ⟨5, 5⟩, direction := ⟨-1, 0⟩, action := .duplicate })
    ∧ rayStep (Grid.new.place ⟨5, 5⟩ .mirrorSlopeUp)
        { coords := ⟨4, 5⟩, direction := ⟨1, 0⟩, action := .duplicate }
      = (Grid.new.place ⟨5, 5⟩ .mirrorSlopeUp,
         some { coords := ⟨5, 5⟩, direction := ⟨0, -1⟩, action := .duplicate })
    ∧ rayStep (Grid.new.place ⟨5, 5⟩ .mirrorSlopeDown)
        { coords := ⟨4, 5⟩, direction := ⟨1, 0⟩, action := .duplicate }
      = (Grid.new.place ⟨5, 5⟩ .mirrorSlopeDown,
         some { coords := ⟨5, 5⟩, direction := ⟨0, 1⟩, action := .duplicate }) := by
  refine ⟨?_, ?_, ?_⟩
  · exact (claim_C6 _ _ { obj := some (Obj.from_kind .mirror), ground := .grass, exit := none }
      (Obj.from_kind .mirror) (by decide) rfl).1 rfl
  · exact (claim_C6 _ _
      { obj := some (Obj.from_kind .mirrorSlopeUp), ground := .grass, exit := none }
      (Obj.from_kind .mirrorSlopeUp) (by decide) rfl).2.1 rfl
  · exact (claim_C6 _ _
      { obj := some (Obj.from_kind .mirrorSlopeDown), ground := .grass, exit := none }
      (Obj.from_kind .mirrorSlopeDown) (by decide) rfl).2.2 rfl

/-- C7: while any ray is in flight, the player move and shoot keys are
rejected as complete no-ops: the whole game state (grid, counters, flags,
ray set) is returned unchanged, so a command is only ever acted on in a
state with no rays in flight. -/
theorem claim_C7 (fuel : Nat) (g : Game) (key : KeyCode)
    (hrays : g.rays ≠ [])
    (hkey : key = .up ∨ key = .down ∨ key = .left ∨ key = .right
      ∨ key = .space ∨ key = .ret) :
    key_down_event fuel g key = g := by
  rcases hkey with rfl | rfl | rfl | rfl | rfl | rfl <;>
    simp [key_down_event, hrays]

/-- Witness for C7 at a concrete state with an in-flight ray. -/
theorem claim_C7_witness :
    key_down_event 3 gOneRay .up = gOneRay ∧ key_down_event 3 gOneRay .space = gOneRay :=
  ⟨claim_C7 3 gOneRay .up (by simp [gOneRay]) (Or.inl rfl),
   claim_C7 3 gOneRay .space (by simp [gOneRay]) (Or.inr (Or.inr (Or.inr (Or.inr (Or.inl rfl)))))⟩

/-- C10: after the R key, the active grid equals a clone of the level
template with, in addition, a freshly created Player (carrying its entry
animation) placed at the entry coordinates, overwriting whatever the
template holds there; rays are discarded, pending cheese is zeroed and the
step counter is restored to its checkpoint. In particular the grid is not
the bare template whenever the template entry tile does not already hold
exactly that Player object (and the entry tile exists). -/
theorem claim_C10 (fuel : Nat) (g : Game) :
    (key_down_event fuel g .r).rays = []
    ∧ (key_down_event fuel g .r).cheese_count_got_here = 0
    ∧ (key_down_event fuel g .r).step_count = g.step_count_at_level_start
    ∧ (key_down_event fuel g .r).grid
        = g.level.grid.setObj g.level.entry_coords
            (some { kind := .player, processed := false, moved := false,
                    animation := .commingFrom (g.level.entry_coords - g.level.entry_direction) })
    ∧ ((g.level.grid.get g.level.entry_coords).isSome →
        g.level.grid.objAt g.level.entry_coords
          ≠ some { kind := .player, processed := false, moved := false,
                   animation := .commingFrom (g.level.entry_coords - g.level.entry_direction) } →
        (key_down_event fuel g .r).grid ≠ g.level.grid) := by
  have hgrid : (key_down_event fuel g .r).grid
      = g.level.grid.setObj g.level.entry_coords
          (some { kind := .player, processed := false, moved := false,
                  animation := .commingFrom (g.level.entry_coords - g.level.entry_direction) }) := by
    show (g.level.grid.setObj g.level.entry_coords
        (some (Obj.from_kind .player))).setObjAnimation g.level.entry_coords
        (.commingFrom (g.level.entry_coords - g.level.entry_direction)) = _
    rw [setObjAnimation_setObj]
    rfl
  refine ⟨rfl, rfl, rfl, hgrid, fun hsome hne heq => ?_⟩
  rw [hgrid] at heq
  obtain ⟨t, ht⟩ := Option.isSome_iff_exists.mp hsome
  apply hne
  have h1 := Grid.objAt_setObj_self ht
    (some { kind := .player, processed := false, moved := false,
            animation := .commingFrom (g.level.entry_coords - g.level.entry_direction) })
  rw [heq] at h1
  rw [h1]

/-- Witness for C10: reset on a concrete game whose template is empty at
the entry tile. -/
theorem claim_C10_witness :
    (key_down_event 2 (mkGame Grid.new) .r).grid ≠ (mkGame Grid.new).level.grid := by
  refine (claim_C10 2 (mkGame Grid.new)).2.2.2.2 (by decide) (by decide)

set_option maxRecDepth 8000 in
/-- C2 counterexample: the duplicate effect does not use the tile of the
Raygun that fired the ray. Here the origin tile (2,5) is occupied by the
gun for the whole flight, so under the claim nothing may be placed and no
tile other than the origin may change; the code nevertheless places the
copy of the shootee on (3,5), the tile the ray came from. -/
theorem claim_C2_counterexample :
    gC2.grid.kindAt ⟨2, 5⟩ = some (.raygun .duplicateShootee)
    ∧ (updateTick (updateTick (player_shoot gC2))).grid.kindAt ⟨2, 5⟩
        = some (.raygun .duplicateShootee)
    ∧ gC2.grid.kindAt ⟨3, 5⟩ = none
    ∧ (updateTick (updateTick (player_shoot gC2))).grid.kindAt ⟨3, 5⟩ = some .rock := by
  refine ⟨by decide, by decide, by decide, by decide⟩

/-- C2 as amended: when a ray carrying the Duplicate action terminates
against a shootee, the code looks at the tile the ray currently occupies
(the tile it is coming from, which coincides with the tile of the firing
Raygun only for a point-blank shot): if that tile is empty, a new Object
of the kind of the shootee is placed there and the shootee is untouched;
if that tile is occupied nothing is placed and the grid is unchanged. In
both cases the ray terminates. -/
theorem claim_C2 (g : Grid) (r : Ray) (t : Tile) (o : Obj)
    (hact : r.action = .duplicate)
    (ht : g.get (r.coords + r.direction) = some t) (ho : t.obj = some o)
    (hk : o.kind ≠ .wallWithHoles ∧ o.kind ≠ .mirror ∧ o.kind ≠ .mirrorSlopeUp
      ∧ o.kind ≠ .mirrorSlopeDown) :
    (g.objAt r.coords = none →
      rayStep g r = (g.setObj r.coords (some (Obj.from_kind o.kind)), none))
    ∧ (∀ o2, g.objAt r.coords = some o2 → rayStep g r = (g, none)) := by
  obtain ⟨hk1, hk2, hk3, hk4⟩ := hk
  constructor
  · intro hempty
    simp [rayStep, ht, ho, hk1, hk2, hk3, hk4, hact, hempty]
  · intro o2 hocc
    simp [rayStep, ht, ho, hk1, hk2, hk3, hk4, hact, hocc]

/-- Witness for C2 as amended: both cases at concrete grids. -/
theorem claim_C2_witness :
    rayStep (Grid.new.place ⟨4, 5⟩ .rock)
        { coords := ⟨3, 5⟩, direction := ⟨1, 0⟩, action := .duplicate }
      = ((Grid.new.place ⟨4, 5⟩ .rock).setObj ⟨3, 5⟩ (some (Obj.from_kind .rock)), none)
    ∧ rayStep ((Grid.new.place ⟨4, 5⟩ .rock).place ⟨3, 5⟩ .soap)
        { coords := ⟨3, 5⟩, direction := ⟨1, 0⟩, action := .duplicate }
      = ((Grid.new.place ⟨4, 5⟩ .rock).place ⟨3, 5⟩ .soap, none) := by
  constructor
  · exact (claim_C2 _ _ { obj := some (Obj.from_kind .rock), ground := .grass, exit := none }
      (Obj.from_kind .rock) rfl (by decide) rfl (by decide)).1 (by decide)
  · exact (claim_C2 _ _ { obj := some (Obj.from_kind .rock), ground := .grass, exit := none }
      (Obj.from_kind .rock) rfl (by decide) rfl (by decide)).2
      (Obj.from_kind .soap) (by decide)

set_option maxRecDepth 8000 in
/-- C3 counterexample: a TurnInto(Rock) ray fired at a Wall does not fail;
the Wall does not remain. The shot terminates against the Wall and
replaces it with a freshly created Rock. -/
theorem claim_C3_counterexample :
    gC3.grid.kindAt ⟨3, 5⟩ = some .wall
    ∧ (updateTick (player_shoot gC3)).grid.kindAt ⟨3, 5⟩ = some .rock
    ∧ (updateTick (player_shoot gC3)).rays = [] := by
  refine ⟨by decide, by decide, by decide⟩

/-- C3 as amended: a TurnIntoTurnInto ray terminating against a Rock
replaces it with a Raygun(TurnInto(Rock)) on the target tile, and a
TurnInto(Rock) ray replaces any shootee it terminates against — a movable
occupant but also a Wall — with a freshly created Rock; only
WallWithHoles and the mirrors are exempt, because such a ray never
terminates against them. -/
theorem claim_C3 (g : Grid) (r : Ray) (t : Tile) (o : Obj)
    (ht : g.get (r.coords + r.direction) = some t) (ho : t.obj = some o)
    (hk : o.kind ≠ .wallWithHoles ∧ o.kind ≠ .mirror ∧ o.kind ≠ .mirrorSlopeUp
      ∧ o.kind ≠ .mirrorSlopeDown) :
    (r.action = .turnIntoTurnInto → o.kind = .rock →
      rayStep g r = (g.setObj (r.coords + r.direction)
        (some (Obj.from_kind (.raygun (.turnInto .rock)))), none))
    ∧ (r.action = .turnInto .rock →
      rayStep g r = (g.setObj (r.coords + r.direction)
        (some (Obj.from_kind .rock)), none)) := by
  obtain ⟨hk1, hk2, hk3, hk4⟩ := hk
  constructor
  · intro hact hkind
    simp [rayStep, ht, ho, hk1, hk2, hk3, hk4, hact, hkind]
  · intro hact
    simp [rayStep, ht, ho, hk1, hk2, hk3, hk4, hact]

set_option maxRecDepth 8000 in
/-- C4 counterexample: the pusher does not end one tile short of its
intended destination. The Player at (3,5) pushing right into the Soap at
(4,5) ends exactly on (4,5), its intended destination, while the Soap
moves to the vacated (3,5); under the claim the pusher would have stopped
one tile short, on (3,5). -/
theorem claim_C4_counterexample :
    (obj_move 5 gSoap ⟨3, 5⟩ ⟨1, 0⟩ false).grid.kindAt ⟨4, 5⟩ = some .player
    ∧ (obj_move 5 gSoap ⟨3, 5⟩ ⟨1, 0⟩ false).grid.kindAt ⟨3, 5⟩ = some .soap := by
  refine ⟨by decide, by decide⟩

set_option maxHeartbeats 2000000 in
/-- C4 as amended: when an object moves into a tile occupied by Soap, the
Soap is removed before the move completes and placed back onto the tile
the mover vacated after the move; the pusher ends exactly on its intended
destination (the tile the Soap occupied), the Soap never participates as
a normally pushed object, every other tile keeps its object, and exactly
one Soap object exists afterwards. -/
theorem claim_C4 (fuel : Nat) (g : Game) (p d : Pt) (pushed : Bool)
    (tp : Tile) (o : Obj) (td : Tile) (s : Obj)
    (hcard : isCardinal d)
    (hp : g.grid.get p = some tp)
    (hobj : tp.obj = some o)
    (hmv : o.can_move = true)
    (hexit : exitTriggered tp o d = none)
    (hdst : g.grid.get (p + d) = some td)
    (hsobj : td.obj = some s)
    (hskind : s.kind = .soap)
    (hkro : o.kind ≠ .rope)
    (hks : o.kind ≠ .soap)
    (hback : g.grid.kindAt (p - d) ≠ some .rope) :
    (obj_move (fuel + 1) g p d pushed).grid.kindAt (p + d) = some o.kind
    ∧ (obj_move (fuel + 1) g p d pushed).grid.kindAt p = some .soap
    ∧ (∀ c, c ≠ p → c ≠ p + d →
        (obj_move (fuel + 1) g p d pushed).grid.objAt c = g.grid.objAt c)
    ∧ ((∀ c, g.grid.kindAt c = some .soap ↔ c = p + d) →
        (∀ c, (obj_move (fuel + 1) g p d pushed).grid.kindAt c = some .soap ↔ c = p)) := by
  have hpd : p + d ≠ p := add_cardinal_ne hcard p
  have hdp : p ≠ p + d := Ne.symm hpd
  have hbp : p - d ≠ p := sub_cardinal_ne hcard p
  have hbd : p - d ≠ p + d := sub_ne_add hcard p
  have hice : iceDst g.grid p d = p + d := iceDst_eq_step (ice_cond_false_of_obj hdst hsobj)
  have hget1 : (g.grid.setObj (p + d) none).get (p + d) = some { td with obj := none } :=
    Grid.get_setObj_self hdst none
  have hobjp : (g.grid.setObj (p + d) none).objAt p = some o := by
    rw [Grid.objAt_setObj_ne hdp]
    unfold Grid.objAt
    rw [hp]
    exact hobj
  have hkp : (g.grid.setObj (p + d) none).kindAt p = some o.kind := by
    unfold Grid.kindAt
    rw [hobjp]
    rfl
  -- the grid after the whole resolution
  have hgetp1 : ((g.grid.setObj (p + d) none).setObj p none).get p
      = some { tp with obj := none } := by
    refine Grid.get_setObj_self ?_ none
    rw [Grid.get_setObj_ne hdp]
    exact hp
  have hgetd2 : (((g.grid.setObj (p + d) none).setObj p none).setObj (p + d)
      (some { o with moved := true, animation := .commingFrom p })).get (p + d)
      = some { td with obj := some { o with moved := true, animation := .commingFrom p } } := by
    have h1 : ((g.grid.setObj (p + d) none).setObj p none).get (p + d)
        = some { td with obj := none } := by
      rw [Grid.get_setObj_ne hpd]
      exact hget1
    have h2 := Grid.get_setObj_self h1
      (some { o with moved := true, animation := .commingFrom p })
    exact h2
  have hkback : (handle_sapling false ((((g.grid.setObj (p + d) none).setObj p
      none).setObj (p + d) (some { o with moved := true, animation := .commingFrom p })).setObj
      p (some (soapPlace s (p + d))))).kindAt (p - d) = g.grid.kindAt (p - d) := by
    rw [kindAt_handle_sapling_false, Grid.kindAt_setObj_ne hbp, Grid.kindAt_setObj_ne hbd,
      Grid.kindAt_setObj_ne hbp, Grid.kindAt_setObj_ne hbd]
  have hrun : obj_move (fuel + 1) g p d pushed
      = { g with grid := handle_sapling false
                  ((((g.grid.setObj (p + d) none).setObj p none).setObj (p + d)
                    (some { o with moved := true, animation := .commingFrom p })).setObj p
                    (some (soapPlace s (p + d)))) } := by
    cases pushed with
    | true =>
      simp only [obj_move, hice, hp, hobj, hexit, hmv, hdst, hsobj, hskind, hget1, hobjp,
        if_pos, if_true, if_false, Bool.false_eq_true, reduceCtorEq, ite_false, ite_true]
    | false =>
      simp only [obj_move, hice, hp, hobj, hexit, hmv, hdst, hsobj, hskind, hget1, hobjp,
        hkp, hkback, hback, hkro, if_pos, if_true, if_false, Bool.false_eq_true,
        reduceCtorEq, ite_false, ite_true, Option.some.injEq, or_self, or_false, false_or]
  rw [hrun]
  have c1 : (handle_sapling false ((((g.grid.setObj (p + d) none).setObj p none).setObj (p + d)
      (some { o with moved := true, animation := .commingFrom p })).setObj p
        (some (soapPlace s (p + d))))).kindAt (p + d) = some o.kind := by
    rw [kindAt_handle_sapling_false, Grid.kindAt_setObj_ne hpd]
    rw [Grid.kindAt_setObj_self (by rw [Grid.get_setObj_ne hpd]; exact hget1)]
    rfl
  have c2 : (handle_sapling false ((((g.grid.setObj (p + d) none).setObj p none).setObj (p + d)
      (some { o with moved := true, animation := .commingFrom p })).setObj p
        (some (soapPlace s (p + d))))).kindAt p = some .soap := by
    rw [kindAt_handle_sapling_false]
    rw [Grid.kindAt_setObj_self (by rw [Grid.get_setObj_ne hdp]; exact hgetp1)]
    show some (soapPlace s (p + d)).kind = some ObjKind.soap
    rw [soapPlace_kind, hskind]
  have c3 : ∀ c, c ≠ p → c ≠ p + d →
      (handle_sapling false ((((g.grid.setObj (p + d) none).setObj p none).setObj (p + d)
        (some { o with moved := true, animation := .commingFrom p })).setObj p
          (some (soapPlace s (p + d))))).objAt c = g.grid.objAt c := by
    intro c hcp hcd
    rw [objAt_handle_sapling_false, Grid.objAt_setObj_ne hcp, Grid.objAt_setObj_ne hcd,
      Grid.objAt_setObj_ne hcp, Grid.objAt_setObj_ne hcd]
  refine ⟨c1, c2, c3, fun huniq c => ?_⟩
  by_cases hcp : c = p
  · subst hcp
    simp [c2]
  · by_cases hcd : c = p + d
    · subst hcd
      rw [c1]
      simp only [Option.some.injEq]
      exact ⟨fun hk => absurd hk hks, fun hk => absurd hk hcp⟩
    · have : (handle_sapling false ((((g.grid.setObj (p + d) none).setObj p none).setObj (p + d)
          (some { o with moved := true, animation := .commingFrom p })).setObj p
            (some (soapPlace s (p + d))))).kindAt c = g.grid.kindAt c := by
        unfold Grid.kindAt
        rw [c3 c hcp hcd]
      rw [this]
      rw [huniq c]
      exact ⟨fun h => absurd h hcd, fun h => absurd h hcp⟩

/-- The all-or-nothing behavior of a straight chain of `N + 1` Rocks at
`p, p + d, ..., p + N·d` pushed from `p`: if the tile past the far end
exists, is empty and is not Ice, every Rock shifts one tile; if that tile
is off the board or holds a Wall, no object kind changes anywhere. -/
theorem rock_chain_push (N : Nat) : ∀ (fuel : Nat) (g : Game) (p d : Pt),
    isCardinal d →
    (∀ i, i ≤ N → g.grid.kindAt (p + smulPt i d) = some ObjKind.rock) →
    N + 1 ≤ fuel →
    ((∀ tfar, g.grid.get (p + smulPt (N + 1) d) = some tfar → tfar.obj = none →
        tfar.ground ≠ .ice →
      (∀ i, 1 ≤ i → i ≤ N + 1 →
        (obj_move fuel g p d true).grid.kindAt (p + smulPt i d) = some ObjKind.rock)
      ∧ (∃ t, (obj_move fuel g p d true).grid.get p = some t ∧ t.obj = none)
      ∧ (∀ c, (∀ i, i ≤ N + 1 → c ≠ p + smulPt i d) →
          (obj_move fuel g p d true).grid.objAt c = g.grid.objAt c))
    ∧ ((g.grid.get (p + smulPt (N + 1) d) = none
        ∨ (∃ tfar ofar, g.grid.get (p + smulPt (N + 1) d) = some tfar
            ∧ tfar.obj = some ofar ∧ ofar.kind = .wall)) →
      ∀ c, (obj_move fuel g p d true).grid.kindAt c = g.grid.kindAt c)) := by
  induction N with
  | zero =>
    intro fuel g p d hcard hrocks hfuel
    obtain ⟨fuel, rfl⟩ : ∃ f, fuel = f + 1 := ⟨fuel - 1, by omega⟩
    have hrock0 : g.grid.kindAt p = some .rock := by
      have h := hrocks 0 (by omega)
      rwa [add_smulPt_zero] at h
    obtain ⟨tp, o, hp, hobj, hko⟩ := Grid.kindAt_eq_some_elim hrock0
    have hexit : exitTriggered tp o d = none := by simp [exitTriggered, hko]
    have hmv : o.can_move = true := by simp [Obj.can_move, hko]
    constructor
    · intro tfar hfar hfobj hfg
      rw [show (0 : Nat) + 1 = 1 from rfl, add_smulPt_one] at hfar
      have hice : iceDst g.grid p d = p + d :=
        iceDst_eq_step (ice_cond_false_of_ground hfar hfg)
      have hrun := obj_move_into_empty fuel true hp hobj hexit hmv hice hfar hfobj
      rw [if_pos rfl] at hrun
      refine ⟨?_, ?_, ?_⟩
      · intro i h1 hi
        have hieq : i = 1 := by omega
        subst hieq
        rw [add_smulPt_one, hrun, Grid.kindAt_def,
          movedGame_objAt_dst o (add_cardinal_ne hcard p) hfar]
        simpa using hko
      · rw [hrun]
        refine ⟨saplingTile false { tp with obj := none }, ?_, ?_⟩
        · show (handle_sapling false _).get p = _
          rw [get_handle_sapling,
            Grid.get_setObj_ne (Ne.symm (add_cardinal_ne hcard p)),
            Grid.get_setObj_self hp]
          rfl
        · rw [saplingTile_false_obj]
      · intro c hc
        have hc0 : c ≠ p := by
          have h := hc 0 (by omega)
          rwa [add_smulPt_zero] at h
        have hc1 : c ≠ p + d := by
          have h := hc 1 (by omega)
          rwa [add_smulPt_one] at h
        rw [hrun, movedGame_objAt_ne o hc0 hc1]
    · intro hblock c
      rw [show (0 : Nat) + 1 = 1 from rfl, add_smulPt_one] at hblock
      rcases hblock with hnone | ⟨tfar, ofar, hfar, hfobj, hfk⟩
      · have hice : iceDst g.grid p d = p + d :=
          iceDst_eq_step (ice_cond_false_of_none hnone)
        rw [obj_move_edge fuel true hp hobj hexit hmv hice hnone]
        show (g.grid.setObjAnimation p (.failingToMoveTo (p + d))).kindAt c
          = g.grid.kindAt c
        rw [kindAt_setObjAnimation]
      · have hice : iceDst g.grid p d = p + d :=
          iceDst_eq_step (ice_cond_false_of_obj hfar hfobj)
        have hexitW : exitTriggered tfar ofar d = none := by simp [exitTriggered, hfk]
        have hmvW : ofar.can_move = false := by simp [Obj.can_move, hfk]
        have hg1 : obj_move fuel g (p + d) d true = g :=
          obj_move_immovable d true hfar hfobj hexitW hmvW fuel
        rw [obj_move_push_blocked fuel true hp hobj hexit hmv hice hfar hfobj
          (by simp [hfk]) (by simp [hko]) (by simp [hko]) (by simp [hko])
          hg1 hfar hfobj (by simp [hfk])]
        show (g.grid.setObjAnimation p (.failingToMoveTo (p + d))).kindAt c
          = g.grid.kindAt c
        rw [kindAt_setObjAnimation]
  | succ N ih =>
    intro fuel g p d hcard hrocks hfuel
    obtain ⟨fuel, rfl⟩ : ∃ f, fuel = f + 1 := ⟨fuel - 1, by omega⟩
    have hrock0 : g.grid.kindAt p = some .rock := by
      have h := hrocks 0 (by omega)
      rwa [add_smulPt_zero] at h
    obtain ⟨tp, o, hp, hobj, hko⟩ := Grid.kindAt_eq_some_elim hrock0
    have hrock1 : g.grid.kindAt (p + d) = some .rock := by
      have h := hrocks 1 (by omega)
      rwa [add_smulPt_one] at h
    obtain ⟨td, od, hdstT, hdobjT, hkod⟩ := Grid.kindAt_eq_some_elim hrock1
    have hexit : exitTriggered tp o d = none := by simp [exitTriggered, hko]
    have hmv : o.can_move = true := by simp [Obj.can_move, hko]
    have hice : iceDst g.grid p d = p + d :=
      iceDst_eq_step (ice_cond_false_of_obj hdstT hdobjT)
    have hsub : ∀ i, i ≤ N → g.grid.kindAt ((p + d) + smulPt i d) = some ObjKind.rock := by
      intro i hi
      rw [← add_smulPt_succ]
      exact hrocks (i + 1) (by omega)
    have IH := ih fuel g (p + d) d hcard hsub (by omega)
    constructor
    · intro tfar hfar hfobj hfg
      rw [add_smulPt_succ p (N + 1) d] at hfar
      obtain ⟨IH1, ⟨t1, hg1dst, ht1⟩, IH3⟩ := IH.1 tfar hfar hfobj hfg
      have hg1p : (obj_move fuel g (p + d) d true).grid.objAt p = some o := by
        rw [IH3 p ?_]
        · unfold Grid.objAt
          rw [hp]
          exact hobj
        · intro i hi
          rw [← add_smulPt_succ]
          have h0 : p + smulPt 0 d ≠ p + smulPt (i + 1) d :=
            add_smulPt_ne hcard p (by omega)
          rwa [add_smulPt_zero] at h0
      have hrun := obj_move_push_free fuel true hp hobj hexit hmv hice hdstT hdobjT
        (by simp [hkod]) (by simp [hko]) (by simp [hko]) (by simp [hko])
        rfl hg1dst ht1 hg1p
      rw [if_pos rfl] at hrun
      refine ⟨?_, ?_, ?_⟩
      · intro i h1 hiN
        rw [hrun]
        by_cases hi1 : i = 1
        · subst hi1
          rw [add_smulPt_one, Grid.kindAt_def,
            movedGame_objAt_dst o (add_cardinal_ne hcard p) hg1dst]
          simpa using hko
        · have hne_p : p + smulPt i d ≠ p := by
            have h := add_smulPt_ne hcard p (show i ≠ 0 by omega)
            rwa [add_smulPt_zero p d] at h
          have hne_pd : p + smulPt i d ≠ p + d := by
            have h := add_smulPt_ne hcard p (show i ≠ 1 by omega)
            rwa [add_smulPt_one] at h
          rw [Grid.kindAt_def, movedGame_objAt_ne o hne_p hne_pd, ← Grid.kindAt_def]
          have hstep := IH1 (i - 1) (by omega) (by omega)
          rw [← add_smulPt_succ] at hstep
          have hii : i - 1 + 1 = i := by omega
          rw [hii] at hstep
          exact hstep
      · rw [hrun]
        obtain ⟨tp1, hg1pt, hg1pto⟩ := Grid.objAt_eq_some_elim hg1p
        refine ⟨saplingTile false { tp1 with obj := none }, ?_, ?_⟩
        · show (handle_sapling false _).get p = _
          rw [get_handle_sapling,
            Grid.get_setObj_ne (Ne.symm (add_cardinal_ne hcard p)),
            Grid.get_setObj_self hg1pt]
          rfl
        · rw [saplingTile_false_obj]
      · intro c hc
        have hc0 : c ≠ p := by
          have h := hc 0 (by omega)
          rwa [add_smulPt_zero] at h
        have hc1 : c ≠ p + d := by
          have h := hc 1 (by omega)
          rwa [add_smulPt_one] at h
        rw [hrun, movedGame_objAt_ne o hc0 hc1]
        refine IH3 c fun i hi => ?_
        rw [← add_smulPt_succ]
        exact hc (i + 1) (by omega)
    · intro hblock c
      rw [add_smulPt_succ p (N + 1) d] at hblock
      have IHb := IH.2 hblock
      have hg1dstK : (obj_move fuel g (p + d) d true).grid.kindAt (p + d)
          = some ObjKind.rock := by
        rw [IHb]
        exact hrock1
      obtain ⟨t1, o1, hg1dst, ht1o, hk1⟩ := Grid.kindAt_eq_some_elim hg1dstK
      rw [obj_move_push_blocked fuel true hp hobj hexit hmv hice hdstT hdobjT
        (by simp [hkod]) (by simp [hko]) (by simp [hko]) (by simp [hko])
        rfl hg1dst ht1o (by simp [hk1])]
      show ((obj_move fuel g (p + d) d true).grid.setObjAnimation p
        (.failingToMoveTo (p + d))).kindAt c = g.grid.kindAt c
      rw [kindAt_setObjAnimation]
      exact IHb c

set_option maxRecDepth 8000 in
/-- C1 counterexample: a chain of one Rock at (5,5) whose far tile (6,5)
is empty, so by the claim the Rock must shift exactly one tile onto
(6,5). Because (6,5) is empty Ice with an empty tile beyond, the code
instead slides the Rock two tiles, to (7,5), leaving (6,5) empty. -/
theorem claim_C1_counterexample :
    gC1ice.grid.kindAt ⟨5, 5⟩ = some .rock
    ∧ gC1ice.grid.objAt ⟨6, 5⟩ = none
    ∧ (obj_move 2 gC1ice ⟨5, 5⟩ ⟨1, 0⟩ true).grid.objAt ⟨6, 5⟩ = none
    ∧ (obj_move 2 gC1ice ⟨5, 5⟩ ⟨1, 0⟩ true).grid.kindAt ⟨7, 5⟩ = some .rock := by
  refine ⟨by decide, by decide, by decide, by decide⟩

/-- C1 as amended: for a straight chain of N Rocks (N at most the grid
length) pushed from one end by a single move resolution, when the tile
past the far end exists, is empty and is not Ice, every Rock in the
chain shifts one tile in the push direction and every other tile keeps
its object; when the chain bottoms out against a Wall or the board edge,
no object anywhere changes kind or position; a shift of only some chain
members never occurs. -/
theorem claim_C1 (N fuel : Nat) (g : Game) (p d : Pt)
    (h1 : 1 ≤ N) (h12 : N ≤ 12) (hfuel : N + 1 ≤ fuel)
    (hcard : isCardinal d)
    (hrocks : ∀ i, i < N → g.grid.kindAt (p + smulPt i d) = some ObjKind.rock) :
    ((∀ tfar, g.grid.get (p + smulPt N d) = some tfar → tfar.obj = none →
        tfar.ground ≠ .ice →
      (∀ i, 1 ≤ i → i ≤ N →
        (obj_move fuel g p d true).grid.kindAt (p + smulPt i d) = some ObjKind.rock)
      ∧ (obj_move fuel g p d true).grid.objAt p = none
      ∧ (∀ c, (∀ i, i ≤ N → c ≠ p + smulPt i d) →
          (obj_move fuel g p d true).grid.objAt c = g.grid.objAt c))
    ∧ ((g.grid.get (p + smulPt N d) = none
        ∨ (∃ tfar ofar, g.grid.get (p + smulPt N d) = some tfar
            ∧ tfar.obj = some ofar ∧ ofar.kind = .wall)) →
      ∀ c, (obj_move fuel g p d true).grid.kindAt c = g.grid.kindAt c)) := by
  obtain ⟨M, rfl⟩ : ∃ M, N = M + 1 := ⟨N - 1, by omega⟩
  have H := rock_chain_push M fuel g p d hcard
    (fun i hi => hrocks i (by omega)) (by omega)
  refine ⟨fun tfar ha hb hc => ?_, H.2⟩
  obtain ⟨A, ⟨t, ht, hto⟩, C⟩ := H.1 tfar ha hb hc
  refine ⟨A, ?_, C⟩
  unfold Grid.objAt
  rw [ht]
  exact hto

set_option maxRecDepth 8000 in
/-- Witness for C1 as amended: the two-rock chain shifts as a whole. -/
theorem claim_C1_witness :
    (obj_move 3 gC1w ⟨3, 5⟩ ⟨1, 0⟩ true).grid.kindAt ⟨4, 5⟩ = some .rock
    ∧ (obj_move 3 gC1w ⟨3, 5⟩ ⟨1, 0⟩ true).grid.kindAt ⟨5, 5⟩ = some .rock
    ∧ (obj_move 3 gC1w ⟨3, 5⟩ ⟨1, 0⟩ true).grid.objAt ⟨3, 5⟩ = none := by
  have h := (claim_C1 2 3 gC1w ⟨3, 5⟩ ⟨1, 0⟩ (by omega) (by omega) (by omega)
    (Or.inl rfl) (by intro i hi; interval_cases i <;> decide)).1
    { obj := none, ground := .grass, exit := none } (by decide) rfl (by decide)
  obtain ⟨A, B, C⟩ := h
  have h1 := A 1 (by omega) (by omega)
  have h2 := A 2 (by omega) (by omega)
  rw [(by decide : ((⟨3, 5⟩ : Pt) + smulPt 1 ⟨1, 0⟩) = ⟨4, 5⟩)] at h1
  rw [(by decide : ((⟨3, 5⟩ : Pt) + smulPt 2 ⟨1, 0⟩) = ⟨5, 5⟩)] at h2
  exact ⟨h1, h2, B⟩

/-- C9: an object pushed toward Ice keeps extending its destination one
tile in the push direction while the destination tile is empty Ice and
the tile beyond it is also empty: with empty Ice at (6,5), (7,5), (8,5)
and empty Grass at (9,5), a Rock pushed from (5,5) onto (6,5) comes to
rest at (9,5) within the single move resolution, vacating (5,5) and
leaving every other tile (the traversed Ice included) unchanged. -/
theorem claim_C9 (fuel : Nat) (g : Game) (tp t6 t7 t8 t9 : Tile) (o : Obj)
    (hp : g.grid.get ⟨5, 5⟩ = some tp) (hobj : tp.obj = some o) (hko : o.kind = .rock)
    (h6 : g.grid.get ⟨6, 5⟩ = some t6) (h6o : t6.obj = none) (h6g : t6.ground = .ice)
    (h7 : g.grid.get ⟨7, 5⟩ = some t7) (h7o : t7.obj = none) (h7g : t7.ground = .ice)
    (h8 : g.grid.get ⟨8, 5⟩ = some t8) (h8o : t8.obj = none) (h8g : t8.ground = .ice)
    (h9 : g.grid.get ⟨9, 5⟩ = some t9) (h9o : t9.obj = none) (h9g : t9.ground = .grass) :
    (obj_move (fuel + 1) g ⟨5, 5⟩ ⟨1, 0⟩ true).grid.kindAt ⟨9, 5⟩ = some .rock
    ∧ (obj_move (fuel + 1) g ⟨5, 5⟩ ⟨1, 0⟩ true).grid.objAt ⟨5, 5⟩ = none
    ∧ (∀ c, c ≠ ⟨5, 5⟩ → c ≠ ⟨9, 5⟩ →
        (obj_move (fuel + 1) g ⟨5, 5⟩ ⟨1, 0⟩ true).grid.objAt c = g.grid.objAt c) := by
  have hexit : exitTriggered tp o ⟨1, 0⟩ = none := by
    simp [exitTriggered, hko]
  have hmv : o.can_move = true := by
    simp [Obj.can_move, hko]
  have hs6 : is_some_and (fun t => t.obj.isNone && decide (t.ground = .ice))
      (g.grid.get ⟨6, 5⟩) = true := by
    rw [h6]; simp [is_some_and, h6o, h6g]
  have hs7 : is_some_and (fun t => t.obj.isNone && decide (t.ground = .ice))
      (g.grid.get ⟨7, 5⟩) = true := by
    rw [h7]; simp [is_some_and, h7o, h7g]
  have hs8 : is_some_and (fun t => t.obj.isNone && decide (t.ground = .ice))
      (g.grid.get ⟨8, 5⟩) = true := by
    rw [h8]; simp [is_some_and, h8o, h8g]
  have he7 : is_some_and (fun t => t.obj.isNone) (g.grid.get ⟨7, 5⟩) = true := by
    rw [h7]; simp [is_some_and, h7o]
  have he8 : is_some_and (fun t => t.obj.isNone) (g.grid.get ⟨8, 5⟩) = true := by
    rw [h8]; simp [is_some_and, h8o]
  have he9 : is_some_and (fun t => t.obj.isNone) (g.grid.get ⟨9, 5⟩) = true := by
    rw [h9]; simp [is_some_and, h9o]
  have hstop : is_some_and (fun t => t.obj.isNone && decide (t.ground = .ice))
      (g.grid.get ⟨9, 5⟩) = false :=
    ice_cond_false_of_ground h9 (by simp [h9g])
  have hice : iceDst g.grid ⟨5, 5⟩ ⟨1, 0⟩ = ⟨9, 5⟩ := by
    unfold iceDst
    rw [show ((⟨5, 5⟩ : Pt) + ⟨1, 0⟩) = ⟨6, 5⟩ from rfl]
    rw [show (144 : Nat) = 143 + 1 from rfl]
    rw [iceDstAux_step hs6 (by rw [show ((⟨6, 5⟩ : Pt) + ⟨1, 0⟩) = ⟨7, 5⟩ from rfl]; exact he7)]
    rw [show ((⟨6, 5⟩ : Pt) + ⟨1, 0⟩) = ⟨7, 5⟩ from rfl]
    rw [show (143 : Nat) = 142 + 1 from rfl]
    rw [iceDstAux_step hs7 (by rw [show ((⟨7, 5⟩ : Pt) + ⟨1, 0⟩) = ⟨8, 5⟩ from rfl]; exact he8)]
    rw [show ((⟨7, 5⟩ : Pt) + ⟨1, 0⟩) = ⟨8, 5⟩ from rfl]
    rw [show (142 : Nat) = 141 + 1 from rfl]
    rw [iceDstAux_step hs8 (by rw [show ((⟨8, 5⟩ : Pt) + ⟨1, 0⟩) = ⟨9, 5⟩ from rfl]; exact he9)]
    rw [show ((⟨8, 5⟩ : Pt) + ⟨1, 0⟩) = ⟨9, 5⟩ from rfl]
    rw [show (141 : Nat) = 140 + 1 from rfl]
    exact iceDstAux_stop hstop
  have hrun := obj_move_into_empty fuel true hp hobj hexit hmv hice h9 h9o
  rw [if_pos rfl] at hrun
  rw [hrun]
  have h95 : (⟨9, 5⟩ : Pt) ≠ ⟨5, 5⟩ := by decide
  have h59 : (⟨5, 5⟩ : Pt) ≠ ⟨9, 5⟩ := by decide
  have hget5 : (g.grid.setObj ⟨5, 5⟩ none).get ⟨9, 5⟩ = some t9 := by
    rw [Grid.get_setObj_ne h95]; exact h9
  refine ⟨?_, ?_, ?_⟩
  · show (handle_sapling false ((g.grid.setObj ⟨5, 5⟩ none).setObj ⟨9, 5⟩
      (some { o with moved := true, animation := .commingFrom ⟨5, 5⟩ }))).kindAt ⟨9, 5⟩
      = some ObjKind.rock
    rw [kindAt_handle_sapling_false, Grid.kindAt_setObj_self hget5]
    show some o.kind = some ObjKind.rock
    rw [hko]
  · show (handle_sapling false ((g.grid.setObj ⟨5, 5⟩ none).setObj ⟨9, 5⟩
      (some { o with moved := true, animation := .commingFrom ⟨5, 5⟩ }))).objAt ⟨5, 5⟩
      = none
    rw [objAt_handle_sapling_false, Grid.objAt_setObj_ne h59,
      Grid.objAt_setObj_self hp]
  · intro c hc5 hc9
    show (handle_sapling false ((g.grid.setObj ⟨5, 5⟩ none).setObj ⟨9, 5⟩
      (some { o with moved := true, animation := .commingFrom ⟨5, 5⟩ }))).objAt c
      = g.grid.objAt c
    rw [objAt_handle_sapling_false, Grid.objAt_setObj_ne hc9, Grid.objAt_setObj_ne hc5]

/-- C8: a successful non-pushed move chains a non-pushed resolution of
the tile behind the vacated source whenever the mover is a Rope or that
tile holds a Rope. In particular a Player moving away from an adjacent
Rope drags the Rope one step onto the vacated tile (first conjunct, with
nothing further behind), and a chain of two linked Ropes both advance
together (second conjunct). -/
theorem claim_C8 (fuel : Nat) (g : Game) (p d : Pt) (tp tdst tb : Tile) (o rope1 : Obj)
    (hcard : isCardinal d)
    (hp : g.grid.get p = some tp) (hobj : tp.obj = some o) (hko : o.kind = .player)
    (hexit : tp.exit = none)
    (hdst : g.grid.get (p + d) = some tdst) (hdobj : tdst.obj = none)
    (hdg : tdst.ground ≠ .ice)
    (hb : g.grid.get (p - d) = some tb) (hbo : tb.obj = some rope1)
    (hr1 : rope1.kind = .rope) :
    (g.grid.objAt (p - d - d) = none →
      (obj_move (fuel + 3) g p d false).grid.kindAt (p + d) = some .player
      ∧ (obj_move (fuel + 3) g p d false).grid.kindAt p = some .rope
      ∧ (obj_move (fuel + 3) g p d false).grid.objAt (p - d) = none
      ∧ (∀ c, c ≠ p → c ≠ p + d → c ≠ p - d →
          (obj_move (fuel + 3) g p d false).grid.objAt c = g.grid.objAt c))
    ∧ (∀ tb2 rope2, g.grid.get (p - d - d) = some tb2 → tb2.obj = some rope2 →
        rope2.kind = .rope → g.grid.objAt (p - d - d - d) = none →
        (obj_move (fuel + 3) g p d false).grid.kindAt (p + d) = some .player
        ∧ (obj_move (fuel + 3) g p d false).grid.kindAt p = some .rope
        ∧ (obj_move (fuel + 3) g p d false).grid.kindAt (p - d) = some .rope
        ∧ (obj_move (fuel + 3) g p d false).grid.objAt (p - d - d) = none
        ∧ (∀ c, c ≠ p → c ≠ p + d → c ≠ p - d → c ≠ p - d - d →
            (obj_move (fuel + 3) g p d false).grid.objAt c = g.grid.objAt c)) := by
  obtain ⟨n1, n2, n3, n4, n5, n6, n7, n8, n9, n10⟩ := cardinal_ne_pack hcard p
  have hshape : obj_move (fuel + 3) g p d false = obj_move (fuel + 2 + 1) g p d false := rfl
  have hexit1 : exitTriggered tp o d = none := by
    simp [exitTriggered, hexit]
  have hmv1 : o.can_move = true := by simp [Obj.can_move, hko]
  have hice1 : iceDst g.grid p d = p + d := iceDst_eq_step (ice_cond_false_of_ground hdst hdg)
  have hkb : (movedGame g p (p + d) o).grid.kindAt (p - d) = some .rope := by
    rw [Grid.kindAt_def, movedGame_objAt_ne o n2 n3]
    unfold Grid.objAt
    rw [hb]
    show Option.map Obj.kind tb.obj = some ObjKind.rope
    rw [hbo]
    simpa using hr1
  have hrun1 : obj_move (fuel + 2 + 1) g p d false
      = obj_move (fuel + 2) (movedGame g p (p + d) o) (p - d) d false := by
    rw [obj_move_into_empty (fuel + 2) false hp hobj hexit1 hmv1 hice1 hdst hdobj]
    rw [if_neg (by exact fun h => Bool.noConfusion h), if_pos (Or.inr hkb)]
  -- facts about the state after the Player has moved
  have hP2 : (movedGame g p (p + d) o).grid.get (p - d) = some (saplingTile false tb) := by
    show (handle_sapling false _).get (p - d) = _
    rw [get_handle_sapling, Grid.get_setObj_ne n3, Grid.get_setObj_ne n2, hb]
    rfl
  have hobj2 : (saplingTile false tb).obj = some rope1 := by
    rw [saplingTile_false_obj]; exact hbo
  have hexit2 : exitTriggered (saplingTile false tb) rope1 d = none := by
    simp [exitTriggered, hr1]
  have hmv2 : rope1.can_move = true := by simp [Obj.can_move, hr1]
  have hdstTile2 : (movedGame g p (p + d) o).grid.get p
      = some (saplingTile false { tp with obj := none }) := by
    show (handle_sapling false _).get p = _
    rw [get_handle_sapling, Grid.get_setObj_ne (Ne.symm n1), Grid.get_setObj_self hp]
    rfl
  have hdobj2 : (saplingTile false { tp with obj := none }).obj = none := by
    rw [saplingTile_false_obj]
  have hgdObj : (movedGame g p (p + d) o).grid.objAt (p + d)
      = some { o with moved := true, animation := .commingFrom p } :=
    movedGame_objAt_dst o n1 hdst
  have hice2 : iceDst (movedGame g p (p + d) o).grid (p - d) d = p := by
    show iceDstAux 144 _ (p - d + d) d = p
    rw [Pt.sub_add_cancel, show (144 : Nat) = 143 + 1 from rfl]
    apply iceDstAux_stop2
    exact is_some_and_isNone_false hgdObj
  have hkAt2 : (movedGame g p (p + d) o).grid.kindAt (p - d) = some ObjKind.rope := hkb
  have hrun2 : obj_move (fuel + 2) (movedGame g p (p + d) o) (p - d) d false
      = obj_move (fuel + 1)
          (movedGame (movedGame g p (p + d) o) (p - d) p rope1) (p - d - d) d false := by
    rw [show fuel + 2 = fuel + 1 + 1 from rfl]
    rw [obj_move_into_empty (fuel + 1) false hP2 hobj2 hexit2 hmv2 hice2 hdstTile2 hdobj2]
    rw [if_neg (by exact fun h => Bool.noConfusion h), if_pos (Or.inl hkAt2)]
  -- shared conclusions about the two-move state
  have hG2dst : (movedGame (movedGame g p (p + d) o) (p - d) p rope1).grid.kindAt (p + d)
      = some .player := by
    rw [Grid.kindAt_def, movedGame_objAt_ne rope1 (Ne.symm n3) n1,
      movedGame_objAt_dst o (Ne.symm (Ne.symm n1)) hdst]
    simpa using hko
  have hG2p : (movedGame (movedGame g p (p + d) o) (p - d) p rope1).grid.kindAt p
      = some .rope := by
    rw [Grid.kindAt_def, movedGame_objAt_dst rope1 (Ne.symm n2) hdstTile2]
    simpa using hr1
  have hG2b : (movedGame (movedGame g p (p + d) o) (p - d) p rope1).grid.objAt (p - d)
      = none := by
    rw [movedGame_objAt_src rope1 n2 hP2]
  have hG2other : ∀ c, c ≠ p → c ≠ p + d → c ≠ p - d →
      (movedGame (movedGame g p (p + d) o) (p - d) p rope1).grid.objAt c
        = g.grid.objAt c := by
    intro c hcp hcd hcb
    rw [movedGame_objAt_ne rope1 hcb hcp, movedGame_objAt_ne o hcp hcd]
  refine ⟨fun hA => ?_, fun tb2 rope2 hb2 hbo2 hr2 hA3 => ?_⟩
  · -- scenario (a): nothing behind the rope, the chained resolution is a no-op
    have hA2 : (movedGame (movedGame g p (p + d) o) (p - d) p rope1).grid.objAt (p - d - d)
        = none := by
      rw [movedGame_objAt_ne rope1 n6 n4, movedGame_objAt_ne o n4 n5]
      exact hA
    have hfinal : obj_move (fuel + 3) g p d false
        = movedGame (movedGame g p (p + d) o) (p - d) p rope1 := by
      rw [hshape, hrun1, hrun2, obj_move_noop d false hA2 (fuel + 1)]
    rw [hfinal]
    exact ⟨hG2dst, hG2p, hG2b, hG2other⟩
  · -- scenario (b): a second rope, dragged in turn
    have hP3 : (movedGame (movedGame g p (p + d) o) (p - d) p rope1).grid.get (p - d - d)
        = some (saplingTile false (saplingTile false tb2)) := by
      show (handle_sapling false _).get (p - d - d) = _
      rw [get_handle_sapling, Grid.get_setObj_ne n4, Grid.get_setObj_ne n6]
      show ((movedGame g p (p + d) o).grid.get (p - d - d)).map _ = _
      show ((handle_sapling false _).get (p - d - d)).map _ = _
      rw [get_handle_sapling, Grid.get_setObj_ne n5, Grid.get_setObj_ne n4, hb2]
      rfl
    have hobj3 : (saplingTile false (saplingTile false tb2)).obj = some rope2 := by
      rw [saplingTile_false_obj, saplingTile_false_obj]; exact hbo2
    have hexit3 : exitTriggered (saplingTile false (saplingTile false tb2)) rope2 d = none := by
      simp [exitTriggered, hr2]
    have hmv3 : rope2.can_move = true := by simp [Obj.can_move, hr2]
    have hdstTile3 : (movedGame (movedGame g p (p + d) o) (p - d) p rope1).grid.get (p - d)
        = some (saplingTile false { saplingTile false tb with obj := none }) := by
      show (handle_sapling false _).get (p - d) = _
      rw [get_handle_sapling, Grid.get_setObj_ne n2, Grid.get_setObj_self hP2]
      rfl
    have hdobj3 : (saplingTile false { saplingTile false tb with obj := none }).obj
        = none := by
      rw [saplingTile_false_obj]
    have hgp2Obj : (movedGame (movedGame g p (p + d) o) (p - d) p rope1).grid.objAt p
        = some { rope1 with moved := true, animation := .commingFrom (p - d) } :=
      movedGame_objAt_dst rope1 (Ne.symm n2) hdstTile2
    have hice3 : iceDst (movedGame (movedGame g p (p + d) o) (p - d) p rope1).grid
        (p - d - d) d = p - d := by
      show iceDstAux 144 _ (p - d - d + d) d = p - d
      rw [Pt.sub_add_cancel (p - d) d, show (144 : Nat) = 143 + 1 from rfl]
      apply iceDstAux_stop2
      rw [Pt.sub_add_cancel p d]
      exact is_some_and_isNone_false hgp2Obj
    have hkAt3 : (movedGame (movedGame g p (p + d) o) (p - d) p rope1).grid.kindAt
        (p - d - d) = some ObjKind.rope := by
      rw [Grid.kindAt_def]
      unfold Grid.objAt
      rw [hP3]
      show Option.map Obj.kind (saplingTile false (saplingTile false tb2)).obj = _
      rw [hobj3]
      simpa using hr2
    have hrun3 : obj_move (fuel + 1)
        (movedGame (movedGame g p (p + d) o) (p - d) p rope1) (p - d - d) d false
        = obj_move fuel
            (movedGame (movedGame (movedGame g p (p + d) o) (p - d) p rope1)
              (p - d - d) (p - d) rope2) (p - d - d - d) d false := by
      rw [obj_move_into_empty fuel false hP3 hobj3 hexit3 hmv3 hice3 hdstTile3 hdobj3]
      rw [if_neg (by exact fun h => Bool.noConfusion h), if_pos (Or.inl hkAt3)]
    have hA4 : (movedGame (movedGame (movedGame g p (p + d) o) (p - d) p rope1)
        (p - d - d) (p - d) rope2).grid.objAt (p - d - d - d) = none := by
      rw [movedGame_objAt_ne rope2 n10 n9, movedGame_objAt_ne rope1 n9 n7,
        movedGame_objAt_ne o n7 n8]
      exact hA3
    have hfinal : obj_move (fuel + 3) g p d false
        = movedGame (movedGame (movedGame g p (p + d) o) (p - d) p rope1)
            (p - d - d) (p - d) rope2 := by
      rw [hshape, hrun1, hrun2, hrun3, obj_move_noop d false hA4 fuel]
    rw [hfinal]
    refine ⟨?_, ?_, ?_, ?_, ?_⟩
    · rw [Grid.kindAt_def, movedGame_objAt_ne rope2 (Ne.symm n5) (Ne.symm n3),
        ← Grid.kindAt_def]
      exact hG2dst
    · rw [Grid.kindAt_def, movedGame_objAt_ne rope2 (Ne.symm n4) (Ne.symm n2),
        ← Grid.kindAt_def]
      exact hG2p
    · rw [Grid.kindAt_def, movedGame_objAt_dst rope2 (Ne.symm n6) hdstTile3]
      simpa using hr2
    · rw [movedGame_objAt_src rope2 n6 hP3]
    · intro c hcp hcd hcb hcb2
      rw [movedGame_objAt_ne rope2 hcb2 hcb]
      exact hG2other c hcp hcd hcb

/-- Witness for C8 at the concrete two-rope chain: the Player advances
and both Ropes follow one step. -/
theorem claim_C8_witness :
    (obj_move 3 gRope2 ⟨3, 5⟩ ⟨1, 0⟩ false).grid.kindAt ⟨4, 5⟩ = some .player
    ∧ (obj_move 3 gRope2 ⟨3, 5⟩ ⟨1, 0⟩ false).grid.kindAt ⟨3, 5⟩ = some .rope
    ∧ (obj_move 3 gRope2 ⟨3, 5⟩ ⟨1, 0⟩ false).grid.kindAt ⟨2, 5⟩ = some .rope
    ∧ (obj_move 3 gRope2 ⟨3, 5⟩ ⟨1, 0⟩ false).grid.objAt ⟨1, 5⟩ = none := by
  have h := (claim_C8 0 gRope2 ⟨3, 5⟩ ⟨1, 0⟩
    { obj := some (Obj.from_kind .player), ground := .grass, exit := none }
    { obj := none, ground := .grass, exit := none }
    { obj := some (Obj.from_kind .rope), ground := .grass, exit := none }
    (Obj.from_kind .player) (Obj.from_kind .rope)
    (Or.inl rfl) (by decide) rfl rfl rfl (by decide) rfl (by decide)
    (by decide) rfl rfl).2
    { obj := some (Obj.from_kind .rope), ground := .grass, exit := none }
    (Obj.from_kind .rope) (by decide) rfl rfl (by decide)
  rw [show ((⟨3, 5⟩ : Pt) + ⟨1, 0⟩) = ⟨4, 5⟩ from rfl,
    show ((⟨3, 5⟩ : Pt) - ⟨1, 0⟩) = ⟨2, 5⟩ from rfl,
    show ((⟨2, 5⟩ : Pt) - ⟨1, 0⟩) = ⟨1, 5⟩ from rfl] at h
  exact ⟨h.1, h.2.1, h.2.2.1, h.2.2.2.1⟩

/-- Witness for C9 at the concrete ice corridor. -/
theorem claim_C9_witness :
    (obj_move 3 gIce ⟨5, 5⟩ ⟨1, 0⟩ true).grid.kindAt ⟨9, 5⟩ = some .rock
    ∧ (obj_move 3 gIce ⟨5, 5⟩ ⟨1, 0⟩ true).grid.objAt ⟨5, 5⟩ = none := by
  have h := claim_C9 2 gIce
    { obj := some (Obj.from_kind .rock), ground := .grass, exit := none }
    { obj := none, ground := .ice, exit := none }
    { obj := none, ground := .ice, exit := none }
    { obj := none, ground := .ice, exit := none }
    { obj := none, ground := .grass, exit := none }
    (Obj.from_kind .rock)
    (by decide) rfl rfl (by decide) rfl rfl (by decide) rfl rfl
    (by decide) rfl rfl (by decide) rfl rfl
  exact ⟨h.1, h.2.1⟩

set_option maxRecDepth 8000 in
/-- Witness for C4 as amended, at the concrete Player-pushes-Soap game. -/
theorem claim_C4_witness :
    (obj_move 6 gSoap ⟨3, 5⟩ ⟨1, 0⟩ false).grid.kindAt ⟨4, 5⟩ = some .player
    ∧ (obj_move 6 gSoap ⟨3, 5⟩ ⟨1, 0⟩ false).grid.kindAt ⟨3, 5⟩ = some .soap
    ∧ ∀ c, (obj_move 6 gSoap ⟨3, 5⟩ ⟨1, 0⟩ false).grid.kindAt c = some .soap ↔ c = ⟨3, 5⟩ := by
  have h := claim_C4 5 gSoap ⟨3, 5⟩ ⟨1, 0⟩ false
    { obj := some (Obj.from_kind .player), ground := .grass, exit := none }
    (Obj.from_kind .player)
    { obj := some (Obj.from_kind .soap), ground := .grass, exit := none }
    (Obj.from_kind .soap)
    (Or.inl rfl) (by decide) rfl rfl rfl (by decide) rfl rfl
    (by decide) (by decide) (by decide)
  refine ⟨h.1, h.2.1, h.2.2.2 ?_⟩
  intro c
  rw [show (⟨3, 5⟩ : Pt) + ⟨1, 0⟩ = ⟨4, 5⟩ from rfl]
  constructor
  · intro hk
    by_contra hne
    have h1 : gSoap.grid.kindAt c = ((Grid.new.place ⟨3, 5⟩ .player).place ⟨4, 5⟩
        .soap).kindAt c := rfl
    rw [h1] at hk
    unfold Grid.place at hk
    rw [Grid.kindAt_setObj_ne hne] at hk
    by_cases h35 : c = ⟨3, 5⟩
    · subst h35
      revert hk
      decide
    · rw [Grid.kindAt_setObj_ne h35, Grid.kindAt_new] at hk
      exact absurd hk (by simp)
  · intro hc
    subst hc
    decide

/-- Witness for C3 as amended: a TurnIntoTurnInto shot at a Rock and a
TurnInto(Rock) shot at a Wall, at concrete grids. -/
theorem claim_C3_witness :
    rayStep (Grid.new.place ⟨4, 5⟩ .rock)
        { coords := ⟨3, 5⟩, direction := ⟨1, 0⟩, action := .turnIntoTurnInto }
      = ((Grid.new.place ⟨4, 5⟩ .rock).setObj ⟨4, 5⟩
          (some (Obj.from_kind (.raygun (.turnInto .rock)))), none)
    ∧ rayStep (Grid.new.place ⟨4, 5⟩ .wall)
        { coords := ⟨3, 5⟩, direction := ⟨1, 0⟩, action := .turnInto .rock }
      = ((Grid.new.place ⟨4, 5⟩ .wall).setObj ⟨4, 5⟩
          (some (Obj.from_kind .rock)), none) := by
  constructor
  · exact (claim_C3 _ _ { obj := some (Obj.from_kind .rock), ground := .grass, exit := none }
      (Obj.from_kind .rock) (by decide) rfl (by decide)).1 rfl rfl
  · exact (claim_C3 _ _ { obj := some (Obj.from_kind .wall), ground := .grass, exit := none }
      (Obj.from_kind .wall) (by decide) rfl (by decide)).2 rfl

end Puzh
